import Mathlib

/-
Verification of the taoquant-grid decision core.

Shallow embedding of the Python sources under src/: machine floats are
modelled as rationals (ℚ), datetimes as rationals (seconds since epoch),
Python dicts as association lists in insertion order, and the append-only
audit journal as a list of events.  Stateful methods become functions
returning the updated record.  Fallible code (an attribute access that can
raise) returns Option.
-/

namespace TaoGrid

/-- Python builtin `min` on two rationals (returns the second argument
when it is strictly smaller). -/
def pymin (a b : ℚ) : ℚ := if b < a then b else a

/-- Python builtin `max` on two rationals (returns the second argument
when it is strictly larger). -/
def pymax (a b : ℚ) : ℚ := if a < b then b else a

/-- Python builtin `abs` on a rational. -/
def pyabs (a : ℚ) : ℚ := if a < 0 then -a else a

/-- Strategy regime states (src/src/models/state.py, `StrategyState`). -/
inductive StrategyState where
  | NORMAL
  | DEFENSIVE
  | DAMAGE_CONTROL
  | EMERGENCY_STOP
deriving DecidableEq, Fintype, Repr

/-- Order modes (src/src/models/state.py, `OrderMode`). -/
inductive OrderMode where
  | FULL
  | NO_NEW_BUYS
  | REDUCE_ONLY
  | KILL_SWITCH
deriving DecidableEq, Fintype, Repr

/-- Python `Enum.name` of a strategy state. -/
def StrategyState.pyName : StrategyState → String
  | .NORMAL => "NORMAL"
  | .DEFENSIVE => "DEFENSIVE"
  | .DAMAGE_CONTROL => "DAMAGE_CONTROL"
  | .EMERGENCY_STOP => "EMERGENCY_STOP"

/-- Python `Enum.name` of an order mode. -/
def OrderMode.pyName : OrderMode → String
  | .FULL => "FULL"
  | .NO_NEW_BUYS => "NO_NEW_BUYS"
  | .REDUCE_ONLY => "REDUCE_ONLY"
  | .KILL_SWITCH => "KILL_SWITCH"

/-- Permission record (src/src/models/state.py, `StatePermissions`). -/
structure StatePermissions where
  allow_new_buy : Bool
  allow_refill_buy : Bool
  allow_sell : Bool
  allow_reduce_only : Bool
  allow_reanchor : Bool
  order_mode : OrderMode
deriving DecidableEq, Repr

/-- Permission matrix (src/src/models/state.py, `STATE_PERMISSIONS`). -/
def STATE_PERMISSIONS : StrategyState → StatePermissions
  | .NORMAL => ⟨true, true, true, false, true, .FULL⟩
  | .DEFENSIVE => ⟨false, false, true, true, false, .NO_NEW_BUYS⟩
  | .DAMAGE_CONTROL => ⟨false, false, true, true, false, .REDUCE_ONLY⟩
  | .EMERGENCY_STOP => ⟨false, false, true, true, false, .KILL_SWITCH⟩

/-- Transition graph (src/src/models/state.py, `VALID_TRANSITIONS`). -/
def VALID_TRANSITIONS : StrategyState → List StrategyState
  | .NORMAL => [.DEFENSIVE, .EMERGENCY_STOP]
  | .DEFENSIVE => [.NORMAL, .DAMAGE_CONTROL, .EMERGENCY_STOP]
  | .DAMAGE_CONTROL => [.NORMAL, .DEFENSIVE, .EMERGENCY_STOP]
  | .EMERGENCY_STOP => [.NORMAL]

/-- Transition validity check (src/src/models/state.py, `is_valid_transition`):
keeping the same state is legal, otherwise the target must be in the graph. -/
def is_valid_transition (from_state to_state : StrategyState) : Bool :=
  if from_state = to_state then true
  else decide (to_state ∈ VALID_TRANSITIONS from_state)

/-- The nine legal edges the specification enumerates, written down from the
spec's words (for comparison with `is_valid_transition`, which is translated
from the code). -/
def spec_legal_edges : List (StrategyState × StrategyState) :=
  [(.NORMAL, .DEFENSIVE), (.NORMAL, .EMERGENCY_STOP),
   (.DEFENSIVE, .NORMAL), (.DEFENSIVE, .DAMAGE_CONTROL), (.DEFENSIVE, .EMERGENCY_STOP),
   (.DAMAGE_CONTROL, .NORMAL), (.DAMAGE_CONTROL, .DEFENSIVE), (.DAMAGE_CONTROL, .EMERGENCY_STOP),
   (.EMERGENCY_STOP, .NORMAL)]

/-- Audit event kinds (src/src/audit/events.py, `AuditEventType`; the kinds
used by the components embedded here). -/
inductive AuditEventType where
  | STATE_CHANGE
  | RISK_TRIGGER
  | ORDER_BLOCKED
  | ORDER_DUPLICATE_BLOCKED
  | CANCEL_RATE_EXCEEDED
deriving DecidableEq, Repr

/-- Audit event (src/src/audit/events.py, `AuditEvent`); the fields read or
written by the embedded components.  The snapshot payload and the remaining
optional fields are not consulted by any claim. -/
structure AuditEvent where
  session_id : String
  timestamp : ℚ
  event_type : AuditEventType
  reason : String
  from_state : Option String := none
  to_state : Option String := none
  trigger_type : Option String := none
  trigger_value : Option ℚ := none
  threshold : Option ℚ := none
  order_type : Option String := none
  order_id : Option String := none
deriving DecidableEq, Repr

/-- `AuditEvent.state_change` constructor (src/src/audit/events.py). -/
def AuditEvent.state_change (session_id : String) (timestamp : ℚ)
    (from_state to_state reason : String) : AuditEvent :=
  { session_id := session_id, timestamp := timestamp,
    event_type := .STATE_CHANGE, reason := reason,
    from_state := some from_state, to_state := some to_state }

/-- `AuditEvent.risk_trigger` constructor (src/src/audit/events.py). -/
def AuditEvent.risk_trigger (session_id : String) (timestamp : ℚ)
    (trigger_type : String) (value threshold : ℚ) (reason : String) : AuditEvent :=
  { session_id := session_id, timestamp := timestamp,
    event_type := .RISK_TRIGGER, reason := reason,
    trigger_type := some trigger_type, trigger_value := some value,
    threshold := some threshold }

/-- `AuditEvent.order_blocked` constructor (src/src/audit/events.py); the
`state` argument is stored in `to_state`, as in the source. -/
def AuditEvent.order_blocked (session_id : String) (timestamp : ℚ)
    (order_type reason state : String) : AuditEvent :=
  { session_id := session_id, timestamp := timestamp,
    event_type := .ORDER_BLOCKED, reason := reason,
    order_type := some order_type, to_state := some state }

/-- Order side (src/src/models/grid.py, `OrderSide`). -/
inductive OrderSide where
  | BUY
  | SELL
deriving DecidableEq, Fintype, Repr

/-- Python `.value` of an order side. -/
def OrderSide.value : OrderSide → String
  | .BUY => "buy"
  | .SELL => "sell"

/-- Grid order (src/src/models/grid.py, `GridOrder`); the fields read by the
grid engine, the order manager and the state machine.  `is_in_core` embeds
the boolean stored under `tags["is_in_core"]`.  The lifecycle fields
(status, fill aggregates, timestamps) are not consulted by any claim. -/
structure GridOrder where
  client_order_id : String
  symbol : String := ""
  side : OrderSide := .BUY
  price : ℚ := 0
  qty : ℚ := 0
  reduce_only : Bool := false
  grid_level : Int := 0
  is_in_core : Bool := true
deriving DecidableEq, Repr

/-- Zero-pad a natural number to width `w` (Python `{n:02d}` / `{n:03d}`). -/
def padNum (w : Nat) (n : Nat) : String :=
  let s := toString n
  if w ≤ s.length then s
  else String.mk (List.replicate (w - s.length) '0') ++ s

/-- Client order id (src/src/models/grid.py, `GridOrder.generate_client_order_id`):
format `{session_id}_L{level_id:02d}_{side}_{seq:03d}`. -/
def generate_client_order_id (session_id : String) (level_id : Nat)
    (side : OrderSide) (sequence : Nat) : String :=
  session_id ++ "_L" ++ padNum 2 level_id ++ "_" ++ side.value ++ "_" ++ padNum 3 sequence

/-- Throttle configuration (src/src/execution/order_manager.py,
`OrderThrottleConfig`). -/
structure OrderThrottleConfig where
  min_order_lifetime_seconds : ℚ := 30
  price_change_threshold_atr_mult : ℚ := 1/10
  cancel_rate_limit_per_minute : Nat := 10
  freeze_duration_seconds : ℚ := 60
deriving DecidableEq, Repr

/-- Order manager state (src/src/execution/order_manager.py, `OrderManager`).
`has_journal` is false when the Python `audit_journal` field is None (then
every `write` call is skipped); `journal` is the content written so far.
Python dicts become association lists in insertion order. -/
structure OrderManager where
  session_id : String := ""
  has_journal : Bool := true
  journal : List AuditEvent := []
  throttle_config : OrderThrottleConfig := {}
  order_mode : OrderMode := .FULL
  active_orders : List (String × GridOrder) := []
  order_created_at : List (String × ℚ) := []
  processed_order_ids : List String := []
  cancel_timestamps : List ℚ := []
  is_frozen : Bool := false
  freeze_until : Option ℚ := none
  current_atr : ℚ := 0
  order_sequence : Nat := 0
deriving DecidableEq, Repr

/-- `audit_journal.write` as seen through the manager: append when a journal
is attached, otherwise a no-op (the Python guard `if ... is None: return`). -/
def OrderManager.writeEvent (m : OrderManager) (e : AuditEvent) : OrderManager :=
  if m.has_journal then { m with journal := m.journal ++ [e] } else m

/-- Mode gate (src/src/execution/order_manager.py,
`OrderManager._check_mode_allows_order`). -/
def OrderManager.check_mode_allows_order (m : OrderManager) (order : GridOrder) :
    Bool × String :=
  if m.order_mode = .KILL_SWITCH then (false, "kill_switch_active")
  else if m.order_mode = .REDUCE_ONLY ∧ ¬ order.reduce_only then
    (false, "reduce_only_mode")
  else if m.order_mode = .NO_NEW_BUYS ∧ order.side = .BUY ∧ ¬ order.reduce_only then
    (false, "no_new_buys_mode")
  else (true, "")

/-- ORDER_BLOCKED audit payload written by `_write_order_blocked`:
order_type is `{order.side.value}_{order.grid_level}` and `state` is the
current mode's name. -/
def OrderManager.order_blocked_event (m : OrderManager) (order : GridOrder)
    (reason : String) (timestamp : ℚ) : AuditEvent :=
  AuditEvent.order_blocked m.session_id timestamp
    (order.side.value ++ "_" ++ toString order.grid_level) reason m.order_mode.pyName

/-- ORDER_DUPLICATE_BLOCKED audit payload written by `_write_duplicate_blocked`. -/
def OrderManager.duplicate_blocked_event (m : OrderManager) (order : GridOrder)
    (timestamp : ℚ) : AuditEvent :=
  { session_id := m.session_id, timestamp := timestamp,
    event_type := .ORDER_DUPLICATE_BLOCKED, reason := "duplicate_order",
    order_id := some order.client_order_id }

/-- The checks of `OrderManager.can_place_order` past the freeze gate:
mode check (writing ORDER_BLOCKED on failure), then the idempotency check
(writing ORDER_DUPLICATE_BLOCKED on failure). -/
def OrderManager.can_place_order_checks (m1 : OrderManager) (order : GridOrder)
    (timestamp : ℚ) : (Bool × String) × OrderManager :=
  let mode_check := m1.check_mode_allows_order order
  if ¬ mode_check.1 then
    (mode_check, m1.writeEvent (m1.order_blocked_event order mode_check.2 timestamp))
  else if order.client_order_id ∈ m1.processed_order_ids then
    ((false, "duplicate_order"), m1.writeEvent (m1.duplicate_blocked_event order timestamp))
  else ((true, ""), m1)

/-- Placement gate (src/src/execution/order_manager.py,
`OrderManager.can_place_order`): the freeze gate — refusing while frozen,
thawing at or past `freeze_until` — followed by the mode and idempotency
checks. -/
def OrderManager.can_place_order (m : OrderManager) (order : GridOrder)
    (timestamp : ℚ) : (Bool × String) × OrderManager :=
  if m.is_frozen then
    match m.freeze_until with
    | some u =>
      if u ≤ timestamp then
        ({ m with is_frozen := false, freeze_until := none } :
          OrderManager).can_place_order_checks order timestamp
      else ((false, "order_manager_frozen"), m)
    | none => ((false, "order_manager_frozen"), m)
  else m.can_place_order_checks order timestamp

/-- Minimum-lifetime check (src/src/execution/order_manager.py,
`OrderManager._can_cancel`). -/
def OrderManager.can_cancel (m : OrderManager) (order : GridOrder) (timestamp : ℚ) : Bool :=
  match m.order_created_at.lookup order.client_order_id with
  | none => true
  | some created_at => m.throttle_config.min_order_lifetime_seconds ≤ timestamp - created_at

/-- Price-move check (src/src/execution/order_manager.py,
`OrderManager._should_modify`); 5-bps fallback when ATR is cold. -/
def OrderManager.should_modify (m : OrderManager) (current desired : GridOrder) : Bool :=
  let threshold :=
    if m.current_atr ≤ 0 then current.price * (5/10000)
    else m.current_atr * m.throttle_config.price_change_threshold_atr_mult
  threshold < pyabs (current.price - desired.price)

/-- Rolling 60-second cancel window after cleanup: the Python list
comprehension keeps timestamps strictly newer than `timestamp − 60`. -/
def clean_cancel_window (stamps : List ℚ) (timestamp : ℚ) : List ℚ :=
  stamps.filter (fun t => timestamp - 60 < t)

/-- CANCEL_RATE_EXCEEDED audit payload (the Python reason interpolates the
window count, the batch size and the limit; the numbers are reproduced
here with plain concatenation). -/
def OrderManager.cancel_rate_event (m : OrderManager) (window_len cancel_count : Nat)
    (timestamp : ℚ) : AuditEvent :=
  { session_id := m.session_id, timestamp := timestamp,
    event_type := .CANCEL_RATE_EXCEEDED,
    reason := "cancel_rate_limit: " ++ toString window_len ++ " + " ++
      toString cancel_count ++ " > " ++ toString m.throttle_config.cancel_rate_limit_per_minute }

/-- Cancel-rate limiter (src/src/execution/order_manager.py,
`OrderManager._check_cancel_rate`): clean the window, refuse (and write the
audit) when `window + cancel_count` would exceed the per-minute limit,
otherwise record `cancel_count` copies of the timestamp. -/
def OrderManager.check_cancel_rate (m : OrderManager) (cancel_count : Nat)
    (timestamp : ℚ) : Bool × OrderManager :=
  let kept := clean_cancel_window m.cancel_timestamps timestamp
  let m1 := { m with cancel_timestamps := kept }
  if m.throttle_config.cancel_rate_limit_per_minute < kept.length + cancel_count then
    (false, m1.writeEvent (m1.cancel_rate_event kept.length cancel_count timestamp))
  else
    (true, { m1 with cancel_timestamps := kept ++ List.replicate cancel_count timestamp })

/-- Freeze (src/src/execution/order_manager.py, `OrderManager._freeze`). -/
def OrderManager.freeze (m : OrderManager) (timestamp : ℚ) : OrderManager :=
  { m with
    is_frozen := true
    freeze_until := some (timestamp + m.throttle_config.freeze_duration_seconds) }

/-- Insert into a Python dict modelled as an association list: overwrite in
place when the key exists, else append. -/
def dictInsert {α β : Type} [DecidableEq α] (d : List (α × β)) (k : α) (v : β) :
    List (α × β) :=
  if d.any (fun p => decide (p.1 = k)) then
    d.map (fun p => if p.1 = k then (k, v) else p)
  else d ++ [(k, v)]

/-- Build the `(grid_level, side)`-keyed dict over a list of orders, in
iteration order (`current_by_key` / `desired_by_key` in `sync_orders`). -/
def ordersByKey (orders : List GridOrder) : List ((Int × OrderSide) × GridOrder) :=
  orders.foldl (fun d o => dictInsert d (o.grid_level, o.side) o) []

/-- First loop of `sync_orders`: walk `current_by_key`; a key absent from
`desired_by_key` is cancelled (if old enough); a key present in both with a
large enough price move is cancelled and re-placed.  Returns
`(orders_to_place, orders_to_cancel)` contributions in iteration order. -/
def sync_scan_current (m : OrderManager) (timestamp : ℚ)
    (desired_by_key : List ((Int × OrderSide) × GridOrder)) :
    List ((Int × OrderSide) × GridOrder) → List GridOrder × List String
  | [] => ([], [])
  | (key, current_order) :: rest =>
    let rest_res := sync_scan_current m timestamp desired_by_key rest
    match desired_by_key.lookup key with
    | none =>
      if m.can_cancel current_order timestamp then
        (rest_res.1, current_order.client_order_id :: rest_res.2)
      else rest_res
    | some desired_order =>
      if m.should_modify current_order desired_order then
        if m.can_cancel current_order timestamp then
          (desired_order :: rest_res.1, current_order.client_order_id :: rest_res.2)
        else rest_res
      else rest_res

/-- Second loop of `sync_orders`: walk `desired_by_key`; a key absent from
`current_by_key` goes through `can_place_order` (which may thaw the freeze
flag and write audit events). -/
def sync_scan_desired (timestamp : ℚ) (current_keys : List (Int × OrderSide)) :
    List ((Int × OrderSide) × GridOrder) → OrderManager → List GridOrder × OrderManager
  | [], m => ([], m)
  | (key, desired_order) :: rest, m =>
    if key ∈ current_keys then sync_scan_desired timestamp current_keys rest m
    else
      let r := m.can_place_order desired_order timestamp
      let rest_res := sync_scan_desired timestamp current_keys rest r.2
      (if r.1.1 then desired_order :: rest_res.1 else rest_res.1, rest_res.2)

/-- Order diff (src/src/execution/order_manager.py, `OrderManager.sync_orders`):
build both key dicts, run the two scans, then apply the cancel-rate limiter —
on refusal the manager freezes and the call returns `([], [])`. -/
def OrderManager.sync_orders (m : OrderManager) (desired_orders current_orders : List GridOrder)
    (timestamp : ℚ) : (List GridOrder × List String) × OrderManager :=
  let current_by_key := ordersByKey current_orders
  let desired_by_key := ordersByKey desired_orders
  let scan1 := sync_scan_current m timestamp desired_by_key current_by_key
  let scan2 := sync_scan_desired timestamp (current_by_key.map (fun p => p.1)) desired_by_key m
  let orders_to_place := scan1.1 ++ scan2.1
  let orders_to_cancel := scan1.2
  let m1 := scan2.2
  if 0 < orders_to_cancel.length then
    let rate := m1.check_cancel_rate orders_to_cancel.length timestamp
    if rate.1 then ((orders_to_place, orders_to_cancel), rate.2)
    else (([], []), rate.2.freeze timestamp)
  else ((orders_to_place, orders_to_cancel), m1)

/-- Unregister an order (src/src/execution/order_manager.py,
`OrderManager.unregister_order`). -/
def OrderManager.unregister_order (m : OrderManager) (client_order_id : String) :
    OrderManager :=
  { m with
    active_orders := m.active_orders.filter (fun p => decide (p.1 ≠ client_order_id))
    order_created_at := m.order_created_at.filter (fun p => decide (p.1 ≠ client_order_id)) }

/-- Risky buys for Defensive entry (src/src/execution/order_manager.py,
`OrderManager.get_risky_buy_orders`): non-reduce-only buys priced outside
the core zone. -/
def OrderManager.get_risky_buy_orders (m : OrderManager) (core_zone_low core_zone_high : ℚ) :
    List String :=
  (m.active_orders.filter (fun p =>
    decide (p.2.side = .BUY) && !p.2.reduce_only &&
      (decide (p.2.price < core_zone_low) || decide (core_zone_high < p.2.price)))).map
    (fun p => p.1)

/-- Non-reduce-only orders for DamageControl entry
(`OrderManager.get_non_reduce_only_orders`). -/
def OrderManager.get_non_reduce_only_orders (m : OrderManager) : List String :=
  (m.active_orders.filter (fun p => !p.2.reduce_only)).map (fun p => p.1)

/-- All order ids for EmergencyStop entry (`OrderManager.get_all_order_ids`). -/
def OrderManager.get_all_order_ids (m : OrderManager) : List String :=
  m.active_orders.map (fun p => p.1)

/-- Execution adapter as seen by the state machine (src/src/interfaces.py,
`IExecutionAdapter`): external venue calls modelled as pure response
functions (exceptions from `cancel_order` are swallowed by the caller, so a
failing call is a `false` response). -/
structure ExecutionAdapter where
  cancel_order : String → Bool
  cancel_all_orders : String → Nat

/-- State machine (src/src/state_machine/states.py, `StateMachine`).
`on_emergency_exit` models the optional exit callback by the result string
it would return. -/
structure StateMachine where
  session_id : String := ""
  has_journal : Bool := true
  journal : List AuditEvent := []
  order_manager : Option OrderManager := none
  execution_adapter : Option ExecutionAdapter := none
  current_state : StrategyState := .NORMAL
  state_since : Option ℚ := none
  transition_history : List (ℚ × StrategyState × StrategyState × String) := []
  symbol : String := ""
  core_zone_low : ℚ := 0
  core_zone_high : ℚ := 0
  on_emergency_exit : Option String := none

/-- `audit_journal.write` through the state machine. -/
def StateMachine.writeEvent (sm : StateMachine) (e : AuditEvent) : StateMachine :=
  if sm.has_journal then { sm with journal := sm.journal ++ [e] } else sm

/-- `can_transition_to` (src/src/state_machine/states.py). -/
def StateMachine.can_transition_to (sm : StateMachine) (new_state : StrategyState) : Bool :=
  is_valid_transition sm.current_state new_state

/-- The cancel loops inside the entry actions: try each id through the
adapter, unregistering and counting on success; adapter exceptions are
swallowed (a failed call leaves the manager untouched). -/
def cancel_and_unregister (ad : ExecutionAdapter) :
    List String → OrderManager → OrderManager × Nat
  | [], om => (om, 0)
  | id :: rest, om =>
    if ad.cancel_order id then
      let r := cancel_and_unregister ad rest (om.unregister_order id)
      (r.1, r.2 + 1)
    else cancel_and_unregister ad rest om

/-- Defensive entry action (src/src/state_machine/states.py,
`StateMachine._enter_defensive`): mode NoNewBuys, cancel risky buys.
`_log_entry_action` is a no-op in the source. -/
def StateMachine.enter_defensive (sm : StateMachine) (_timestamp : ℚ) : StateMachine :=
  match sm.order_manager with
  | none => sm
  | some om =>
    let om1 := { om with order_mode := .NO_NEW_BUYS }
    let risky := om1.get_risky_buy_orders sm.core_zone_low sm.core_zone_high
    match sm.execution_adapter with
    | none => { sm with order_manager := some om1 }
    | some ad =>
      let r := cancel_and_unregister ad risky om1
      { sm with order_manager := some r.1 }

/-- DamageControl entry action (`StateMachine._enter_damage_control`):
mode ReduceOnly, cancel all non-reduce-only orders. -/
def StateMachine.enter_damage_control (sm : StateMachine) (_timestamp : ℚ) : StateMachine :=
  match sm.order_manager with
  | none => sm
  | some om =>
    let om1 := { om with order_mode := .REDUCE_ONLY }
    let ids := om1.get_non_reduce_only_orders
    match sm.execution_adapter with
    | none => { sm with order_manager := some om1 }
    | some ad =>
      let r := cancel_and_unregister ad ids om1
      { sm with order_manager := some r.1 }

/-- EmergencyStop entry action (`StateMachine._enter_emergency_stop`):
mode KillSwitch, cancel every live order (by symbol when one is set, else
one by one — the counts feed only the no-op logger), then unregister all
ids from the manager.  The emergency-exit callback contributes only its
logged result. -/
def StateMachine.enter_emergency_stop (sm : StateMachine) (_timestamp : ℚ) : StateMachine :=
  let om1 : Option OrderManager :=
    match sm.order_manager with
    | some om => some { om with order_mode := .KILL_SWITCH }
    | none => none
  let all_ids : List String :=
    match sm.order_manager with
    | some om => om.get_all_order_ids
    | none => []
  match sm.execution_adapter with
  | none => { sm with order_manager := om1 }
  | some _ =>
    let om2 : Option OrderManager :=
      match om1 with
      | some om => some (all_ids.foldl (fun acc id => acc.unregister_order id) om)
      | none => none
    { sm with order_manager := om2 }

/-- Normal entry action (`StateMachine._enter_normal`): restore mode Full. -/
def StateMachine.enter_normal (sm : StateMachine) (_timestamp : ℚ) : StateMachine :=
  match sm.order_manager with
  | none => sm
  | some om => { sm with order_manager := some { om with order_mode := .FULL } }

/-- Entry-action dispatch (`StateMachine._execute_entry_actions`). -/
def StateMachine.execute_entry_actions (sm : StateMachine) (new_state : StrategyState)
    (timestamp : ℚ) : StateMachine :=
  match new_state with
  | .DEFENSIVE => sm.enter_defensive timestamp
  | .DAMAGE_CONTROL => sm.enter_damage_control timestamp
  | .EMERGENCY_STOP => sm.enter_emergency_stop timestamp
  | .NORMAL => sm.enter_normal timestamp

/-- Transition (src/src/state_machine/states.py, `StateMachine.transition_to`):
same target is a successful no-op; an illegal edge returns false untouched;
otherwise move, stamp `state_since`, record history, run the entry actions
and write the STATE_CHANGE audit event. -/
def StateMachine.transition_to (sm : StateMachine) (new_state : StrategyState)
    (reason : String) (timestamp : ℚ) : Bool × StateMachine :=
  if sm.current_state = new_state then (true, sm)
  else if ¬ sm.can_transition_to new_state then (false, sm)
  else
    let old_state := sm.current_state
    let sm1 := { sm with
      current_state := new_state
      state_since := some timestamp
      transition_history := sm.transition_history ++ [(timestamp, old_state, new_state, reason)] }
    let sm2 := sm1.execute_entry_actions new_state timestamp
    (true, sm2.writeEvent
      (AuditEvent.state_change sm.session_id timestamp old_state.pyName new_state.pyName reason))

/-- Inventory (src/src/models/inventory.py, `Inventory`).  The history keeps
`(timestamp, ratio)` samples, truncated to the last 100. -/
structure Inventory where
  position_qty : ℚ := 0
  max_inventory_notional : ℚ := 10000
  last_mark_price : ℚ := 0
  last_update : Option ℚ := none
  ratio_history : List (ℚ × ℚ) := []
deriving DecidableEq, Repr

/-- `Inventory.notional_value`: `abs(position_qty) * mark_price` — the
absolute value is applied to the quantity only. -/
def Inventory.notional_value (inv : Inventory) : ℚ :=
  pyabs inv.position_qty * inv.last_mark_price

/-- `Inventory.inventory_ratio`: 1.0 when the notional cap is non-positive,
else `min(1, notional / cap)`. -/
def Inventory.inventory_ratio (inv : Inventory) : ℚ :=
  if inv.max_inventory_notional ≤ 0 then 1
  else pymin 1 (inv.notional_value / inv.max_inventory_notional)

/-- `Inventory.update_price`: set the mark price and timestamp, append the
new ratio sample, keep the last 100 samples. -/
def Inventory.update_price (inv : Inventory) (mark_price timestamp : ℚ) : Inventory :=
  let inv1 := { inv with last_mark_price := mark_price, last_update := some timestamp }
  let hist := inv1.ratio_history ++ [(timestamp, inv1.inventory_ratio)]
  { inv1 with ratio_history := if 100 < hist.length then hist.drop (hist.length - 100) else hist }

/-- `Inventory.update_on_fill`: move the position by the fill quantity
(side "buy" adds, "sell" subtracts, anything else is ignored), then
`update_price`. -/
def Inventory.update_on_fill (inv : Inventory) (fill_qty : ℚ) (side : String)
    (mark_price timestamp : ℚ) : Inventory :=
  let inv1 :=
    if side = "buy" then { inv with position_qty := inv.position_qty + fill_qty }
    else if side = "sell" then { inv with position_qty := inv.position_qty - fill_qty }
    else inv
  inv1.update_price mark_price timestamp

/-- Breakeven accumulator (src/src/models/inventory.py, `Breakeven`). -/
structure Breakeven where
  total_cost : ℚ := 0
  total_qty : ℚ := 0
  total_fees : ℚ := 0
  total_slippage : ℚ := 0
deriving DecidableEq, Repr

/-- `Breakeven.price`: 0 on a flat book, else
`(cost + fees + slippage) / qty`. -/
def Breakeven.price (b : Breakeven) : ℚ :=
  if b.total_qty = 0 then 0
  else (b.total_cost + b.total_fees + b.total_slippage) / b.total_qty

/-- `Breakeven.avg_cost_price`: 0 on a flat book, else `cost / qty`. -/
def Breakeven.avg_cost_price (b : Breakeven) : ℚ :=
  if b.total_qty = 0 then 0 else b.total_cost / b.total_qty

/-- `Breakeven.update_on_fill`: a buy accumulates cost, quantity, fees and
slippage; a sell against a positive book scales cost/fees/slippage by
`(1 − fill_qty/total_qty)`, subtracts the quantity, then adds the new fee
and slippage; any other case is a no-op. -/
def Breakeven.update_on_fill (b : Breakeven) (fill_price fill_qty fee : ℚ)
    (side : String) (slippage : ℚ) : Breakeven :=
  if side = "buy" then
    { b with
      total_cost := b.total_cost + fill_price * fill_qty
      total_qty := b.total_qty + fill_qty
      total_fees := b.total_fees + fee
      total_slippage := b.total_slippage + slippage }
  else if side = "sell" then
    if 0 < b.total_qty then
      let ratio := fill_qty / b.total_qty
      { total_cost := b.total_cost * (1 - ratio)
        total_qty := b.total_qty - fill_qty
        total_fees := b.total_fees * (1 - ratio) + fee
        total_slippage := b.total_slippage * (1 - ratio) + slippage }
    else b
  else b

/-- One call in an inventory update sequence: a price tick or a fill. -/
inductive InvOp where
  | price (mark_price timestamp : ℚ)
  | fill (fill_qty : ℚ) (side : String) (mark_price timestamp : ℚ)
deriving DecidableEq, Repr

/-- The mark price an operation supplies. -/
def InvOp.markPrice : InvOp → ℚ
  | .price p _ => p
  | .fill _ _ p _ => p

/-- Apply one update call to an inventory. -/
def Inventory.applyOp (inv : Inventory) : InvOp → Inventory
  | .price p t => inv.update_price p t
  | .fill q s p t => inv.update_on_fill q s p t

/-- Apply a sequence of update calls in order. -/
def Inventory.applyOps (inv : Inventory) (ops : List InvOp) : Inventory :=
  ops.foldl Inventory.applyOp inv

/-- Spacing configuration (src/src/grid_engine/grid_builder.py,
`SpacingConfig`). -/
structure SpacingConfig where
  base_step_method : String := "atr"
  base_step_fixed : ℚ := 100
  core_compress_factor : ℚ := 7/10
  buffer_expand_factor : ℚ := 13/10
deriving DecidableEq, Repr

/-- Active-window configuration (`ActiveWindowConfig`). -/
structure ActiveWindowConfig where
  N_buy_active : Nat := 5
  M_sell_active : Nat := 5
deriving DecidableEq, Repr

/-- Edge-decay configuration (`EdgeDecayConfig`). -/
structure EdgeDecayConfig where
  edge_band_atr_mult : ℚ := 3/2
  edge_decay_factor : ℚ := 7/10
deriving DecidableEq, Repr

/-- Advantage gate as read by the grid engine (src/src/interfaces.py,
`IAdvantageGate`): the `opportunity_valid` flag and the core zone. -/
structure AdvantageGateView where
  opportunity_valid : Bool
  core_zone : ℚ × ℚ
deriving DecidableEq, Repr

/-- Grid engine (src/src/grid_engine/grid_builder.py, `GridEngine`). -/
structure GridEngine where
  session_id : String := ""
  symbol : String := ""
  base_size : ℚ := 1/1000
  spacing_config : SpacingConfig := {}
  active_window_config : ActiveWindowConfig := {}
  edge_decay_config : EdgeDecayConfig := {}
  advantage_gate : Option AdvantageGateView := none
  current_atr : ℚ := 0
  current_price : ℚ := 0
  outer_range_low : ℚ := 0
  outer_range_high : ℚ := 0
  order_sequence : Nat := 0
deriving DecidableEq, Repr

/-- `GridEngine._calculate_base_step`: fixed method returns the fixed step;
the ATR method falls back to the fixed step when ATR is cold. -/
def GridEngine.calculate_base_step (e : GridEngine) : ℚ :=
  if e.spacing_config.base_step_method = "fixed" then e.spacing_config.base_step_fixed
  else if e.current_atr ≤ 0 then e.spacing_config.base_step_fixed
  else e.current_atr

/-- `GridEngine._calculate_edge_decay`: the last two rungs taper by
`edge_decay_factor ^ (level_index − edge_start + 1)`. -/
def GridEngine.calculate_edge_decay (e : GridEngine) (level_index max_levels : Nat) : ℚ :=
  if max_levels ≤ 1 then 1
  else
    let edge_start := max_levels - 2
    if level_index < edge_start then 1
    else e.edge_decay_config.edge_decay_factor ^ (level_index - edge_start + 1)

/-- `GridEngine._get_core_zone`: the gate's zone when a gate is attached,
else the outer range. -/
def GridEngine.get_core_zone (e : GridEngine) : ℚ × ℚ :=
  match e.advantage_gate with
  | some gate => gate.core_zone
  | none => (e.outer_range_low, e.outer_range_high)

/-- `GridEngine._create_order`: bump the sequence and build the order; the
client id uses `abs(level_id)`. -/
def GridEngine.create_order (e : GridEngine) (level_id : Int) (price : ℚ)
    (side : OrderSide) (size : ℚ) (reduce_only is_in_core : Bool) :
    GridOrder × GridEngine :=
  let e1 := { e with order_sequence := e.order_sequence + 1 }
  let cid := generate_client_order_id e.session_id level_id.natAbs side e1.order_sequence
  ({ client_order_id := cid, symbol := e.symbol, side := side, price := price,
     qty := size, reduce_only := reduce_only, grid_level := level_id,
     is_in_core := is_in_core }, e1)

/-- The loop body of `GridEngine._generate_reduce_only_orders`: one
reduce-only sell per level index in `range(M_sell_active)`. -/
def reduce_only_loop (current_price base_step : ℚ) (max_levels : Nat) :
    List Nat → GridEngine → List GridOrder × GridEngine
  | [], e => ([], e)
  | i :: rest, e =>
    let level_id : Int := (i : Int) + 1
    let price := current_price + base_step * ((i : ℚ) + 1)
    let decay := e.calculate_edge_decay i max_levels
    let r := e.create_order level_id price .SELL (e.base_size * decay) true true
    let rec_res := reduce_only_loop current_price base_step max_levels rest r.2
    (r.1 :: rec_res.1, rec_res.2)

/-- `GridEngine._generate_reduce_only_orders`: empty on non-positive
inventory, else `M_sell_active` reduce-only sells above the price. -/
def GridEngine.generate_reduce_only_orders (e : GridEngine)
    (current_price inventory_ratio : ℚ) : List GridOrder × GridEngine :=
  if inventory_ratio ≤ 0 then ([], e)
  else
    let base_step := e.calculate_base_step
    let M := e.active_window_config.M_sell_active
    reduce_only_loop current_price base_step M (List.range M) e

/-- The loop body of `GridEngine._generate_buy_levels`: walk down from
`current_price − core_step`, stop (`break`) below the outer range, step by
the core step inside the core zone and by the buffer step outside. -/
def buy_levels_loop (core_low core_step buffer_step : ℚ) (max_levels : Nat) :
    List Nat → ℚ → GridEngine → List GridOrder × GridEngine
  | [], _, e => ([], e)
  | i :: rest, price, e =>
    let is_in_core := core_low ≤ price
    let step := if is_in_core then core_step else buffer_step
    if price < e.outer_range_low then ([], e)
    else
      let decay := e.calculate_edge_decay i max_levels
      let r := e.create_order (-((i : Int) + 1)) price .BUY (e.base_size * decay) false is_in_core
      let rec_res := buy_levels_loop core_low core_step buffer_step max_levels rest (price - step) r.2
      (r.1 :: rec_res.1, rec_res.2)

/-- `GridEngine._generate_buy_levels`. -/
def GridEngine.generate_buy_levels (e : GridEngine) (current_price core_low
    core_step buffer_step : ℚ) (max_levels : Nat) : List GridOrder × GridEngine :=
  buy_levels_loop core_low core_step buffer_step max_levels
    (List.range max_levels) (current_price - core_step) e

/-- The loop body of `GridEngine._generate_sell_levels`: walk up from
`current_price + core_step`, stop above the outer range. -/
def sell_levels_loop (core_high core_step buffer_step : ℚ) (max_levels : Nat) :
    List Nat → ℚ → GridEngine → List GridOrder × GridEngine
  | [], _, e => ([], e)
  | i :: rest, price, e =>
    let is_in_core := price ≤ core_high
    let step := if is_in_core then core_step else buffer_step
    if e.outer_range_high < price then ([], e)
    else
      let decay := e.calculate_edge_decay i max_levels
      let r := e.create_order ((i : Int) + 1) price .SELL (e.base_size * decay) false is_in_core
      let rec_res := sell_levels_loop core_high core_step buffer_step max_levels rest (price + step) r.2
      (r.1 :: rec_res.1, rec_res.2)

/-- `GridEngine._generate_sell_levels`. -/
def GridEngine.generate_sell_levels (e : GridEngine) (current_price core_high
    core_step buffer_step : ℚ) (max_levels : Nat) : List GridOrder × GridEngine :=
  sell_levels_loop core_high core_step buffer_step max_levels
    (List.range max_levels) (current_price + core_step) e

/-- `GridEngine._generate_normal_orders`: full ladder, buys then sells. -/
def GridEngine.generate_normal_orders (e : GridEngine)
    (current_price _inventory_ratio : ℚ) : List GridOrder × GridEngine :=
  let zone := e.get_core_zone
  let base_step := e.calculate_base_step
  let core_step := base_step * e.spacing_config.core_compress_factor
  let buffer_step := base_step * e.spacing_config.buffer_expand_factor
  let buys := e.generate_buy_levels current_price zone.1 core_step buffer_step
    e.active_window_config.N_buy_active
  let sells := buys.2.generate_sell_levels current_price zone.2 core_step buffer_step
    buys.2.active_window_config.M_sell_active
  (buys.1 ++ sells.1, sells.2)

/-- `GridEngine._generate_defensive_orders`: sells only, with the core step
used for the buffer as well. -/
def GridEngine.generate_defensive_orders (e : GridEngine)
    (current_price _inventory_ratio : ℚ) : List GridOrder × GridEngine :=
  let zone := e.get_core_zone
  let base_step := e.calculate_base_step
  let core_step := base_step * e.spacing_config.core_compress_factor
  let sells := e.generate_sell_levels current_price zone.2 core_step core_step
    e.active_window_config.M_sell_active
  (sells.1, sells.2)

/-- The regime dispatch inside `GridEngine.generate_orders`, reached only
after the advantage-gate check. -/
def GridEngine.generate_orders_by_state (e : GridEngine) (current_price : ℚ)
    (state : StrategyState) (inventory_ratio : ℚ) : List GridOrder × GridEngine :=
  if state = .EMERGENCY_STOP then ([], e)
  else if state = .DAMAGE_CONTROL then e.generate_reduce_only_orders current_price inventory_ratio
  else if state = .DEFENSIVE then e.generate_defensive_orders current_price inventory_ratio
  else e.generate_normal_orders current_price inventory_ratio

/-- Target order set (src/src/grid_engine/grid_builder.py,
`GridEngine.generate_orders`): store the price, then — before any regime
check — downgrade to reduce-only sells whenever an attached advantage gate
reports the opportunity invalid; otherwise dispatch on the regime. -/
def GridEngine.generate_orders (e : GridEngine) (current_price : ℚ)
    (state : StrategyState) (inventory_ratio : ℚ) : List GridOrder × GridEngine :=
  let e1 := { e with current_price := current_price }
  match e1.advantage_gate with
  | some gate =>
    if ¬ gate.opportunity_valid then
      e1.generate_reduce_only_orders current_price inventory_ratio
    else e1.generate_orders_by_state current_price state inventory_ratio
  | none => e1.generate_orders_by_state current_price state inventory_ratio

/-- Transition trigger kinds (src/src/state_machine/transitions.py,
`TransitionTrigger`). -/
inductive TransitionTrigger where
  | PRICE_BOUNDARY
  | INV_WARN
  | VOL_SPIKE
  | INV_DAMAGE
  | STRUCTURAL_BREAK
  | RISK_BUDGET_STOP
  | LIQUIDITY_GAP
  | LIQ_DISTANCE
  | API_FAULT
  | DATA_STALE
  | CONDITIONS_RECOVERED
  | MANUAL_RESET
deriving DecidableEq, Repr

/-- Python `Enum.name` of a transition trigger. -/
def TransitionTrigger.pyName : TransitionTrigger → String
  | .PRICE_BOUNDARY => "PRICE_BOUNDARY"
  | .INV_WARN => "INV_WARN"
  | .VOL_SPIKE => "VOL_SPIKE"
  | .INV_DAMAGE => "INV_DAMAGE"
  | .STRUCTURAL_BREAK => "STRUCTURAL_BREAK"
  | .RISK_BUDGET_STOP => "RISK_BUDGET_STOP"
  | .LIQUIDITY_GAP => "LIQUIDITY_GAP"
  | .LIQ_DISTANCE => "LIQ_DISTANCE"
  | .API_FAULT => "API_FAULT"
  | .DATA_STALE => "DATA_STALE"
  | .CONDITIONS_RECOVERED => "CONDITIONS_RECOVERED"
  | .MANUAL_RESET => "MANUAL_RESET"

/-- Transition proposal (src/src/state_machine/transitions.py,
`TransitionResult`).  The Python `reason` strings interpolate numeric
values; the constant prefix is kept and the interpolation elided — no
claim inspects the text. -/
structure TransitionResult where
  triggered : Bool
  target_state : Option StrategyState
  trigger : Option TransitionTrigger
  reason : String
  value : Option ℚ := none
  threshold : Option ℚ := none
deriving DecidableEq, Repr

/-- `TransitionResult.no_transition`. -/
def TransitionResult.no_transition : TransitionResult :=
  { triggered := false, target_state := none, trigger := none, reason := "" }

/-- `TransitionResult.to_defensive`. -/
def TransitionResult.to_defensive (trigger : TransitionTrigger) (reason : String)
    (value threshold : Option ℚ := none) : TransitionResult :=
  { triggered := true, target_state := some .DEFENSIVE, trigger := some trigger,
    reason := reason, value := value, threshold := threshold }

/-- `TransitionResult.to_damage_control`. -/
def TransitionResult.to_damage_control (trigger : TransitionTrigger) (reason : String)
    (value threshold : Option ℚ := none) : TransitionResult :=
  { triggered := true, target_state := some .DAMAGE_CONTROL, trigger := some trigger,
    reason := reason, value := value, threshold := threshold }

/-- `TransitionResult.to_emergency_stop`. -/
def TransitionResult.to_emergency_stop (trigger : TransitionTrigger) (reason : String)
    (value threshold : Option ℚ := none) : TransitionResult :=
  { triggered := true, target_state := some .EMERGENCY_STOP, trigger := some trigger,
    reason := reason, value := value, threshold := threshold }

/-- `TransitionResult.to_normal`. -/
def TransitionResult.to_normal (trigger : TransitionTrigger) (reason : String) :
    TransitionResult :=
  { triggered := true, target_state := some .NORMAL, trigger := some trigger,
    reason := reason }

/-- Inventory trigger (src/src/risk_engine/triggers.py, `InventoryTrigger`). -/
structure InventoryTrigger where
  inv_warn : ℚ := 55/100
  inv_damage : ℚ := 7/10
  inv_stop : ℚ := 85/100
  inv_back_to_normal : ℚ := 4/10
  current_inventory_ratio : ℚ := 0
  current_state : StrategyState := .NORMAL
deriving DecidableEq, Repr

/-- `InventoryTrigger.check`: stop and damage thresholds propose
DamageControl, the warn threshold proposes Defensive from Normal, and at
or below `inv_back_to_normal` from Defensive it proposes recovery to
Normal.  The timestamp parameter is unused by the source as well. -/
def InventoryTrigger.check (t : InventoryTrigger) (_timestamp : ℚ) : TransitionResult :=
  let ratio := t.current_inventory_ratio
  let state := t.current_state
  if t.inv_stop ≤ ratio then
    .to_damage_control .INV_DAMAGE "inventory_stop" (some ratio) (some t.inv_stop)
  else if t.inv_damage ≤ ratio ∧ (state = .NORMAL ∨ state = .DEFENSIVE) then
    .to_damage_control .INV_DAMAGE "inventory_damage" (some ratio) (some t.inv_damage)
  else if t.inv_warn ≤ ratio ∧ state = .NORMAL then
    .to_defensive .INV_WARN "inventory_warn" (some ratio) (some t.inv_warn)
  else if ratio ≤ t.inv_back_to_normal ∧ state = .DEFENSIVE then
    .to_normal .CONDITIONS_RECOVERED "inventory_recovered"
  else .no_transition

/-- `InventoryTrigger.update`. -/
def InventoryTrigger.update (t : InventoryTrigger) (inventory_ratio : ℚ)
    (state : StrategyState) : InventoryTrigger :=
  { t with current_inventory_ratio := inventory_ratio, current_state := state }

/-- Risk-budget trigger (src/src/risk_engine/triggers.py, `RiskBudgetTrigger`). -/
structure RiskBudgetTrigger where
  margin_cap : ℚ := 8/10
  max_dd : ℚ := 15/100
  current_margin_usage : ℚ := 0
  current_drawdown : ℚ := 0
  current_state : StrategyState := .NORMAL
deriving DecidableEq, Repr

/-- `RiskBudgetTrigger.check`: margin cap or max drawdown breached (outside
EmergencyStop) proposes DamageControl. -/
def RiskBudgetTrigger.check (t : RiskBudgetTrigger) (_timestamp : ℚ) : TransitionResult :=
  if t.margin_cap ≤ t.current_margin_usage ∧ t.current_state ≠ .EMERGENCY_STOP then
    .to_damage_control .RISK_BUDGET_STOP "margin_cap_exceeded"
      (some t.current_margin_usage) (some t.margin_cap)
  else if t.max_dd ≤ t.current_drawdown ∧ t.current_state ≠ .EMERGENCY_STOP then
    .to_damage_control .RISK_BUDGET_STOP "max_dd_exceeded"
      (some t.current_drawdown) (some t.max_dd)
  else .no_transition

/-- `RiskBudgetTrigger.update`. -/
def RiskBudgetTrigger.update (t : RiskBudgetTrigger) (margin_usage drawdown : ℚ)
    (state : StrategyState) : RiskBudgetTrigger :=
  { t with
    current_margin_usage := margin_usage
    current_drawdown := drawdown
    current_state := state }

/-- Structural-break trigger state (src/src/risk_engine/triggers.py,
`StructuralTrigger`); the recovery path of the risk engine consults only
the `_is_outside` flag. -/
structure StructuralTrigger where
  outer_range_low : ℚ := 0
  outer_range_high : ℚ := 0
  atr_buffer : ℚ := 0
  confirm_minutes : ℚ := 240
  current_price : ℚ := 0
  current_state : StrategyState := .NORMAL
  is_outside : Bool := false
  outside_since : Option ℚ := none
  confirmed : Bool := false
deriving DecidableEq, Repr

/-- Emergency trigger (src/src/risk_engine/triggers.py, `EmergencyTrigger`);
the defaults are the safe values of the source. -/
structure EmergencyTrigger where
  liq_distance_threshold : ℚ := 3/100
  margin_ratio_threshold : ℚ := 12/10
  api_fault_max_consecutive : Nat := 3
  data_stale_seconds : ℚ := 30
  price_gap_atr_mult : ℚ := 5
  current_liq_distance : Option ℚ := none
  current_margin_ratio : ℚ := 10
  current_api_fault_count : Nat := 0
  current_data_age_seconds : ℚ := 0
  current_price_change_ratio : ℚ := 0
  current_atr : ℚ := 0
deriving DecidableEq, Repr

/-- `EmergencyTrigger.check`: liquidation distance, margin ratio, API
faults, data staleness and price gaps, in that order, each proposing
EmergencyStop. -/
def EmergencyTrigger.check (t : EmergencyTrigger) (_timestamp : ℚ) : TransitionResult :=
  let liq_fire : Bool :=
    match t.current_liq_distance with
    | some d => decide (d < t.liq_distance_threshold)
    | none => false
  if liq_fire then
    .to_emergency_stop .LIQ_DISTANCE "liq_distance_critical"
      t.current_liq_distance (some t.liq_distance_threshold)
  else if t.current_margin_ratio < t.margin_ratio_threshold then
    .to_emergency_stop .LIQ_DISTANCE "margin_ratio_critical"
      (some t.current_margin_ratio) (some t.margin_ratio_threshold)
  else if t.api_fault_max_consecutive ≤ t.current_api_fault_count then
    .to_emergency_stop .API_FAULT "api_fault"
      (some (t.current_api_fault_count : ℚ)) (some (t.api_fault_max_consecutive : ℚ))
  else if t.data_stale_seconds ≤ t.current_data_age_seconds then
    .to_emergency_stop .DATA_STALE "data_stale"
      (some t.current_data_age_seconds) (some t.data_stale_seconds)
  else if 0 < t.current_atr ∧
      t.current_atr * t.price_gap_atr_mult < pyabs t.current_price_change_ratio then
    .to_emergency_stop .LIQUIDITY_GAP "price_gap"
      (some (pyabs t.current_price_change_ratio)) (some (t.current_atr * t.price_gap_atr_mult))
  else .no_transition

/-- Price-boundary trigger (src/src/risk_engine/triggers.py,
`PriceBoundaryTrigger`). -/
structure PriceBoundaryTrigger where
  outer_range_low : ℚ := 0
  outer_range_high : ℚ := 0
  buffer_atr_mult : ℚ := 1/2
  min_state_hold_minutes : ℚ := 15
  current_mark_price : ℚ := 0
  current_atr : ℚ := 0
  current_state : StrategyState := .NORMAL
  state_since : Option ℚ := none
deriving DecidableEq, Repr

/-- `PriceBoundaryTrigger.check`: from Normal only, propose Defensive when
the mark price is at or below `outer_range_low + buffer` or at or above
`outer_range_high − buffer` (buffer = ATR · buffer_atr_mult).  The
minimum-hold field is not consulted here. -/
def PriceBoundaryTrigger.check (t : PriceBoundaryTrigger) (_timestamp : ℚ) :
    TransitionResult :=
  if t.current_state ≠ .NORMAL then .no_transition
  else
    let buffer := t.current_atr * t.buffer_atr_mult
    let lower_buffer_zone := t.outer_range_low + buffer
    let upper_buffer_zone := t.outer_range_high - buffer
    let in_lower_buffer := t.current_mark_price ≤ lower_buffer_zone
    let in_upper_buffer := upper_buffer_zone ≤ t.current_mark_price
    if in_lower_buffer ∨ in_upper_buffer then
      .to_defensive .PRICE_BOUNDARY "price_boundary" (some t.current_mark_price)
        (some (if in_lower_buffer then lower_buffer_zone else upper_buffer_zone))
    else .no_transition

/-- `PriceBoundaryTrigger.check_recovery`: from Defensive only, after the
minimum hold (when `state_since` is known), propose Normal when the price
is inside `outer_range ∓ 1.5·buffer`. -/
def PriceBoundaryTrigger.check_recovery (t : PriceBoundaryTrigger) (timestamp : ℚ) :
    TransitionResult :=
  if t.current_state ≠ .DEFENSIVE then .no_transition
  else
    let hold_block : Bool :=
      match t.state_since with
      | some since => decide ((timestamp - since) / 60 < t.min_state_hold_minutes)
      | none => false
    if hold_block then .no_transition
    else
      let buffer := t.current_atr * t.buffer_atr_mult
      let lower_safe := t.outer_range_low + buffer * (3/2)
      let upper_safe := t.outer_range_high - buffer * (3/2)
      if lower_safe ≤ t.current_mark_price ∧ t.current_mark_price ≤ upper_safe then
        .to_normal .CONDITIONS_RECOVERED "price_boundary_cleared"
      else .no_transition

/-- `PriceBoundaryTrigger.update`. -/
def PriceBoundaryTrigger.update (t : PriceBoundaryTrigger) (mark_price atr : ℚ)
    (state : StrategyState) (outer_range_low outer_range_high : ℚ)
    (state_since : Option ℚ) : PriceBoundaryTrigger :=
  { t with
    current_mark_price := mark_price
    current_atr := atr
    current_state := state
    outer_range_low := outer_range_low
    outer_range_high := outer_range_high
    state_since := state_since }

/-- Volatility-spike detector state (src/src/utils/volatility.py,
`VolSpikeDetector`): the recovery path of the risk engine reads only the
sticky `is_spike` flag; the ATR bookkeeping behind it is not consulted by
any claim. -/
structure VolSpikeDetector where
  is_spike : Bool := false
deriving DecidableEq, Repr

/-- Risk engine (src/src/risk_engine/engine.py, `RiskEngine`); the trigger
records, the detector flag and the audit journal. -/
structure RiskEngine where
  session_id : String := ""
  has_journal : Bool := true
  journal : List AuditEvent := []
  inventory_trigger : InventoryTrigger := {}
  risk_budget_trigger : RiskBudgetTrigger := {}
  structural_trigger : StructuralTrigger := {}
  emergency_trigger : EmergencyTrigger := {}
  price_boundary_trigger : PriceBoundaryTrigger := {}
  vol_spike_detector : VolSpikeDetector := {}
  current_state : StrategyState := .NORMAL
  state_since : Option ℚ := none
deriving DecidableEq, Repr

/-- `RiskEngine._write_risk_trigger`: append a RISK_TRIGGER event when a
journal is attached (`result.value or 0.0` maps absent values to 0). -/
def RiskEngine.write_risk_trigger (e : RiskEngine) (timestamp : ℚ)
    (result : TransitionResult) : RiskEngine :=
  if e.has_journal then
    { e with journal := e.journal ++
        [AuditEvent.risk_trigger e.session_id timestamp
          (match result.trigger with | some tr => tr.pyName | none => "unknown")
          (result.value.getD 0) (result.threshold.getD 0) result.reason] }
  else e

/-- `RiskEngine.evaluate_on_fill` (src/src/risk_engine/engine.py): update
the inventory and budget triggers from the fill-time facts, then check
emergency, inventory and budget triggers in order; the first that fires is
written to the journal and returned. -/
def RiskEngine.evaluate_on_fill (e : RiskEngine) (fill_timestamp inventory_ratio
    margin_usage drawdown : ℚ) : Option (Option StrategyState × String) × RiskEngine :=
  let e1 := { e with
    inventory_trigger := e.inventory_trigger.update inventory_ratio e.current_state
    risk_budget_trigger := e.risk_budget_trigger.update margin_usage drawdown e.current_state }
  let emergency_result := e1.emergency_trigger.check fill_timestamp
  if emergency_result.triggered then
    (some (emergency_result.target_state, emergency_result.reason),
      e1.write_risk_trigger fill_timestamp emergency_result)
  else
    let inv_result := e1.inventory_trigger.check fill_timestamp
    if inv_result.triggered then
      (some (inv_result.target_state, inv_result.reason),
        e1.write_risk_trigger fill_timestamp inv_result)
    else
      let budget_result := e1.risk_budget_trigger.check fill_timestamp
      if budget_result.triggered then
        (some (budget_result.target_state, budget_result.reason),
          e1.write_risk_trigger fill_timestamp budget_result)
      else (none, e1)

/-- `RiskEngine._check_recovery` (src/src/risk_engine/engine.py): inventory
recovery, then price-boundary recovery, then the all-clear branch (no vol
spike, Defensive, inventory at or below `inv_back_to_normal`, structural
trigger not outside). -/
def RiskEngine.check_recovery (e : RiskEngine) (timestamp : ℚ) :
    Option (Option StrategyState × String) :=
  let inv_result := e.inventory_trigger.check timestamp
  if inv_result.triggered ∧ inv_result.target_state = some .NORMAL then
    some (inv_result.target_state, inv_result.reason)
  else
    let boundary_recovery := e.price_boundary_trigger.check_recovery timestamp
    if boundary_recovery.triggered then
      some (boundary_recovery.target_state, boundary_recovery.reason)
    else if ¬ e.vol_spike_detector.is_spike ∧ e.current_state = .DEFENSIVE then
      if e.inventory_trigger.current_inventory_ratio ≤ e.inventory_trigger.inv_back_to_normal then
        if ¬ e.structural_trigger.is_outside then
          some (some .NORMAL, "all_conditions_recovered")
        else none
      else none
    else none

/-- De-risk configuration (src/src/derisk_engine/derisk.py, `DeRiskConfig`). -/
structure DeRiskConfig where
  harvest_profit_threshold : ℚ := 2/100
  harvest_inventory_ratio : ℚ := 35/100
  harvest_require_opportunity_valid : Bool := true
  harvest_require_minutes : ℚ := 60
  derisk_efficiency_drop : ℚ := 3/10
  derisk_min_inventory : ℚ := 2/10
  house_money_profit_pct : ℚ := 5/100
  house_money_reduce_target : ℚ := 1/2
  reduce_batch_size : ℚ := 1/10
  reduce_cooldown_minutes : ℚ := 15
deriving DecidableEq, Repr

/-- Harvest latch (src/src/derisk_engine/derisk.py, `HarvestState`). -/
structure HarvestState where
  is_active : Bool := false
  triggered_at : Option ℚ := none
  trigger_reason : String := ""
  target_reduce_ratio : ℚ := 0
deriving DecidableEq, Repr

/-- De-risk latch (src/src/derisk_engine/derisk.py, `DeRiskState`). -/
structure DeRiskState where
  is_active : Bool := false
  triggered_at : Option ℚ := none
  trigger_reason : String := ""
  target_reduce_ratio : ℚ := 0
deriving DecidableEq, Repr

/-- House-money latch (src/src/derisk_engine/derisk.py, `HouseMoneyState`). -/
structure HouseMoneyState where
  is_active : Bool := false
  activated_at : Option ℚ := none
  locked_profit : ℚ := 0
  conservative_mode : Bool := false
deriving DecidableEq, Repr

/-- De-risk engine (src/src/derisk_engine/derisk.py, `DeRiskEngine`). -/
structure DeRiskEngine where
  config : DeRiskConfig := {}
  session_id : String := ""
  harvest_state : HarvestState := {}
  derisk_state : DeRiskState := {}
  house_money_state : HouseMoneyState := {}
  last_reduce_time : Option ℚ := none
  efficiency_history : List (ℚ × ℚ) := []
  peak_efficiency : ℚ := 0
deriving DecidableEq, Repr

/-- The attribute access `inventory.position_notional` performed by
`DeRiskEngine._calculate_efficiency`: the `Inventory` dataclass
(src/src/models/inventory.py) defines no attribute of that name (its
notional is `notional_value`), so the Python lookup raises
AttributeError — modelled as `none`. -/
def Inventory.position_notional_attr (_inv : Inventory) : Option ℚ := none

/-- `DeRiskEngine._calculate_efficiency` (src/src/derisk_engine/derisk.py):
guards on `inventory.position_notional`, then returns
`1 − inventory_ratio`; `none` models the AttributeError raised by the
guard's attribute access. -/
def calculate_efficiency (inv : Inventory) : Option ℚ :=
  match inv.position_notional_attr with
  | none => none
  | some pn => if pn ≤ 0 then some 0 else some (1 - inv.inventory_ratio)

/-- `DeRiskEngine._check_cooldown`: true when no reduction happened yet or
the cooldown minutes have elapsed. -/
def DeRiskEngine.check_cooldown (e : DeRiskEngine) (timestamp : ℚ) : Bool :=
  match e.last_reduce_time with
  | none => true
  | some t => decide (e.config.reduce_cooldown_minutes ≤ (timestamp - t) / 60)

/-- `DeRiskEngine._check_house_money`: on first crossing of the profit
threshold, latch conservative mode and propose the house-money reduce
target. -/
def DeRiskEngine.check_house_money (e : DeRiskEngine) (timestamp initial_equity
    current_equity : ℚ) : (Bool × String × ℚ) × DeRiskEngine :=
  if initial_equity ≤ 0 then ((false, "", 0), e)
  else
    let profit_pct := (current_equity - initial_equity) / initial_equity
    if e.house_money_state.is_active then ((false, "already_house_money", 0), e)
    else if e.config.house_money_profit_pct ≤ profit_pct then
      ((true, "house_money", e.config.house_money_reduce_target),
        { e with house_money_state :=
          { is_active := true, activated_at := some timestamp,
            locked_profit := profit_pct, conservative_mode := true } })
    else ((false, "", 0), e)

/-- `DeRiskEngine._check_harvest`: regime in {Normal, Defensive}, inventory
at or above the harvest ratio, a sustained valid opportunity (when
required), a positive breakeven, and profit over breakeven at or above the
harvest threshold; proposes `ratio − reduce_batch_size` floored at 0. -/
def DeRiskEngine.check_harvest (e : DeRiskEngine) (timestamp : ℚ) (inventory : Inventory)
    (breakeven : Breakeven) (current_price : ℚ) (opportunity_valid : Bool)
    (opportunity_valid_minutes : ℚ) (strategy_state : StrategyState) :
    (Bool × String × ℚ) × DeRiskEngine :=
  if ¬ (strategy_state = .NORMAL ∨ strategy_state = .DEFENSIVE) then ((false, "", 0), e)
  else if inventory.inventory_ratio < e.config.harvest_inventory_ratio then ((false, "", 0), e)
  else if e.config.harvest_require_opportunity_valid ∧ ¬ opportunity_valid then
    ((false, "", 0), e)
  else if e.config.harvest_require_opportunity_valid ∧
      opportunity_valid_minutes < e.config.harvest_require_minutes then
    ((false, "", 0), e)
  else if breakeven.price ≤ 0 then ((false, "", 0), e)
  else
    let profit_pct := (current_price - breakeven.price) / breakeven.price
    if e.config.harvest_profit_threshold ≤ profit_pct then
      let target := pymax 0 (inventory.inventory_ratio - e.config.reduce_batch_size)
      ((true, "harvest", target),
        { e with harvest_state :=
          { is_active := true, triggered_at := some timestamp,
            trigger_reason := "harvest", target_reduce_ratio := target } })
    else ((false, "", 0), e)

/-- `DeRiskEngine._check_derisk`: outside EmergencyStop, with inventory at
or above the minimum, compute efficiency (which raises, see
`calculate_efficiency`), track the running peak and fire at or above the
configured efficiency drop; `none` propagates the AttributeError. -/
def DeRiskEngine.check_derisk (e : DeRiskEngine) (timestamp : ℚ) (inventory : Inventory)
    (strategy_state : StrategyState) : Option ((Bool × String × ℚ) × DeRiskEngine) :=
  if strategy_state = .EMERGENCY_STOP then some ((false, "", 0), e)
  else if inventory.inventory_ratio < e.config.derisk_min_inventory then
    some ((false, "", 0), e)
  else
    match calculate_efficiency inventory with
    | none => none
    | some current_efficiency =>
      let e1 := { e with
        efficiency_history := e.efficiency_history ++ [(timestamp, current_efficiency)]
        peak_efficiency := pymax e.peak_efficiency current_efficiency }
      if e1.peak_efficiency ≤ 0 then some ((false, "", 0), e1)
      else
        let efficiency_drop := (e1.peak_efficiency - current_efficiency) / e1.peak_efficiency
        if e.config.derisk_efficiency_drop ≤ efficiency_drop then
          let target := pymax 0 (inventory.inventory_ratio - e.config.reduce_batch_size)
          some ((true, "derisk", target),
            { e1 with derisk_state :=
              { is_active := true, triggered_at := some timestamp,
                trigger_reason := "derisk", target_reduce_ratio := target } })
        else some ((false, "", 0), e1)

/-- `DeRiskEngine.evaluate` (src/src/derisk_engine/derisk.py): cooldown
guard, then house-money, harvest and de-risk in that order; the first
firing condition is returned, else `(False, "no_action", 0.0)`.  The result
is `none` when the de-risk branch raises. -/
def DeRiskEngine.evaluate (e : DeRiskEngine) (timestamp : ℚ) (inventory : Inventory)
    (breakeven : Breakeven) (current_price : ℚ) (opportunity_valid : Bool)
    (opportunity_valid_minutes : ℚ) (strategy_state : StrategyState)
    (initial_equity current_equity : ℚ) :
    Option ((Bool × String × ℚ) × DeRiskEngine) :=
  if ¬ e.check_cooldown timestamp then some ((false, "in_cooldown", 0), e)
  else
    let hm := e.check_house_money timestamp initial_equity current_equity
    if hm.1.1 then some hm
    else
      let hv := hm.2.check_harvest timestamp inventory breakeven current_price
        opportunity_valid opportunity_valid_minutes strategy_state
      if hv.1.1 then some hv
      else
        match hv.2.check_derisk timestamp inventory strategy_state with
        | none => none
        | some dr =>
          if dr.1.1 then some dr else some ((false, "no_action", 0), dr.2)

/-- The minimum-hold condition of `PriceBoundaryTrigger.check_recovery`:
when `state_since` is known, the state has been held at least
`min_state_hold_minutes`. -/
def pb_hold_elapsed (t : PriceBoundaryTrigger) (timestamp : ℚ) : Prop :=
  ∀ since, t.state_since = some since →
    t.min_state_hold_minutes ≤ (timestamp - since) / 60

/-- The safe-zone condition of `PriceBoundaryTrigger.check_recovery`: the
mark price lies inside `outer_range ∓ 1.5·(ATR·buffer_atr_mult)`. -/
def pb_in_safe_zone (t : PriceBoundaryTrigger) : Prop :=
  t.outer_range_low + t.current_atr * t.buffer_atr_mult * (3/2) ≤ t.current_mark_price ∧
  t.current_mark_price ≤ t.outer_range_high - t.current_atr * t.buffer_atr_mult * (3/2)

instance (t : PriceBoundaryTrigger) (timestamp : ℚ) :
    Decidable (pb_hold_elapsed t timestamp) := by
  unfold pb_hold_elapsed
  exact match t.state_since with
  | some s => decidable_of_iff (t.min_state_hold_minutes ≤ (timestamp - s) / 60)
      (by constructor
          · intro h x hx; cases hx; exact h
          · intro h; exact h s rfl)
  | none => isTrue (by intro x hx; cases hx)

instance (t : PriceBoundaryTrigger) : Decidable (pb_in_safe_zone t) := by
  unfold pb_in_safe_zone; infer_instance

/-- Count of CANCEL_RATE_EXCEEDED events in a journal. -/
def countCancelRateEvents (journal : List AuditEvent) : Nat :=
  (journal.filter (fun e => decide (e.event_type = .CANCEL_RATE_EXCEEDED))).length

/-- Machine held in EmergencyStop (for exercising transitions at a
concrete input). -/
def sm_emergency : StateMachine := { current_state := .EMERGENCY_STOP }

/-- Risk engine in Defensive with inventory ratio 0.5 and the mark price
inside the price-boundary safe zone (outer range [100, 200], ATR 10). -/
def riskengine_pb : RiskEngine :=
  { current_state := .DEFENSIVE
    inventory_trigger := { current_inventory_ratio := 1/2, current_state := .DEFENSIVE }
    price_boundary_trigger :=
      { outer_range_low := 100
        outer_range_high := 200
        current_atr := 10
        current_state := .DEFENSIVE
        current_mark_price := 150
        state_since := none } }

/-- Risk engine in Defensive with all trigger inputs at their safe
defaults (for the on-fill evaluation). -/
def riskengine_defensive : RiskEngine := { current_state := .DEFENSIVE }

/-- Grid engine whose advantage gate reports an invalid opportunity. -/
def gridengine_invalid_gate : GridEngine := { advantage_gate := some ⟨false, (0, 0)⟩ }

/-- Grid engine whose advantage gate reports a valid opportunity. -/
def gridengine_valid_gate : GridEngine := { advantage_gate := some ⟨true, (0, 0)⟩ }

/-- Order manager in kill-switch mode. -/
def om_kill_switch : OrderManager := { order_mode := .KILL_SWITCH }

/-- A plain non-reduce-only buy order. -/
def order_plain_buy : GridOrder := { client_order_id := "o1", side := .BUY }

/-- Order manager with sixty cancellations recorded at time 50 in the
rolling window. -/
def om_sixty_cancels : OrderManager := { cancel_timestamps := List.replicate 60 (50 : ℚ) }

/-- Order manager frozen until time 120. -/
def om_frozen : OrderManager := { is_frozen := true, freeze_until := some 120 }

/-- A live sell order at level 1 (a current order that the diff wants to
cancel when the desired set is empty). -/
def order_live_sell : GridOrder := { client_order_id := "x1", side := .SELL, price := 100, grid_level := 1 }

/-- Price-boundary trigger state: Normal just entered at time 0, outer
range [100, 200], ATR 10, mark price 103 (inside the lower buffer band). -/
def pb_trigger_fresh : PriceBoundaryTrigger :=
  { outer_range_low := 100
    outer_range_high := 200
    current_atr := 10
    current_state := .NORMAL
    current_mark_price := 103
    state_since := some 0 }

/-- Inventory: long 1 unit at mark price 5000 against the default 10000
notional cap (ratio 0.5). -/
def inventory_half : Inventory := { position_qty := 1, last_mark_price := 5000 }

/-! Theorems.  First a few facts about the Python-builtin helpers. -/

/-- `pyabs` is nonnegative. -/
theorem pyabs_nonneg (a : ℚ) : 0 ≤ pyabs a := by
  unfold pyabs
  split
  · rename_i h
    exact neg_nonneg.mpr (le_of_lt h)
  · rename_i h
    exact not_lt.mp h

/-- C1 counterexample: `is_valid_transition` returns true on the pair
(Normal, Normal), which is not one of the nine legal edges the claim
enumerates, so "returns false for every other pair" fails on every
self-loop. -/
theorem c1_self_loop_counterexample :
    is_valid_transition .NORMAL .NORMAL = true ∧
    (StrategyState.NORMAL, StrategyState.NORMAL) ∉ spec_legal_edges := by
  decide

/-- C1 (amended): `is_valid_transition from to` returns true exactly when
`(from, to)` is one of the nine legal edges or `from = to` (staying in the
current state is accepted); `transition_to` on an illegal target returns
False leaving the machine (in particular current state and `state_since`)
unchanged; and `transition_to` with the current state as target is a no-op
returning True. -/
theorem c1_transition_graph :
    (∀ f t, is_valid_transition f t = true ↔ ((f, t) ∈ spec_legal_edges ∨ f = t)) ∧
    (∀ (sm : StateMachine) (t : StrategyState) (reason : String) (ts : ℚ),
      is_valid_transition sm.current_state t = false →
      sm.transition_to t reason ts = (false, sm)) ∧
    (∀ (sm : StateMachine) (reason : String) (ts : ℚ),
      sm.transition_to sm.current_state reason ts = (true, sm)) := by
  refine ⟨by decide, ?_, ?_⟩
  · intro sm t reason ts h
    have hne : sm.current_state ≠ t := by
      intro he
      rw [he] at h
      simp [is_valid_transition] at h
    simp [StateMachine.transition_to, hne, StateMachine.can_transition_to, h]
  · intro sm reason ts
    simp [StateMachine.transition_to]

/-- C1 witness: from EmergencyStop, the Defensive edge is illegal and
refused without mutation, while re-targeting EmergencyStop is a
successful no-op. -/
theorem c1_transition_graph_witness :
    is_valid_transition sm_emergency.current_state .DEFENSIVE = false ∧
    sm_emergency.transition_to .DEFENSIVE "blocked" 0 = (false, sm_emergency) ∧
    sm_emergency.transition_to .EMERGENCY_STOP "noop" 0 = (true, sm_emergency) :=
  ⟨by decide,
   c1_transition_graph.2.1 sm_emergency .DEFENSIVE "blocked" 0 (by decide),
   c1_transition_graph.2.2 sm_emergency "noop" 0⟩

/-- C5 counterexample: a single buy fill carrying a negative mark price
drives `inventory_ratio` below 0 — `notional_value` takes the absolute
value of the quantity only, so the claimed [0, 1] bound fails for this
update sequence. -/
theorem c5_negative_ratio_counterexample :
    (Inventory.applyOps {} [InvOp.fill 1 "buy" (-5) 0]).inventory_ratio < 0 := by
  norm_num [Inventory.applyOps, Inventory.applyOp, Inventory.update_on_fill,
    Inventory.update_price, Inventory.inventory_ratio, Inventory.notional_value,
    pymin, pyabs]

/-- C5 (amended): for every sequence of `update_price` / `update_on_fill`
calls whose supplied mark prices are nonnegative (and a nonnegative
starting mark price), `inventory_ratio` stays in [0, 1]; and each
`update_on_fill` with quantity q moves `position_qty` by exactly +q for
side "buy" and −q for side "sell". -/
theorem c5_inventory_ratio_bounds :
    (∀ (inv : Inventory) (ops : List InvOp),
      0 ≤ inv.last_mark_price →
      (∀ op ∈ ops, 0 ≤ op.markPrice) →
      0 ≤ (inv.applyOps ops).inventory_ratio ∧ (inv.applyOps ops).inventory_ratio ≤ 1) ∧
    (∀ (inv : Inventory) (q p t : ℚ),
      (inv.update_on_fill q "buy" p t).position_qty = inv.position_qty + q ∧
      (inv.update_on_fill q "sell" p t).position_qty = inv.position_qty - q) := by
  constructor
  · have hratio : ∀ inv : Inventory, 0 ≤ inv.last_mark_price →
        0 ≤ inv.inventory_ratio ∧ inv.inventory_ratio ≤ 1 := by
      intro inv h
      have hnot : 0 ≤ inv.notional_value := by
        unfold Inventory.notional_value
        exact mul_nonneg (pyabs_nonneg _) h
      unfold Inventory.inventory_ratio
      split
      · exact ⟨zero_le_one, le_refl 1⟩
      · rename_i hmax
        push_neg at hmax
        have hdiv : 0 ≤ inv.notional_value / inv.max_inventory_notional :=
          div_nonneg hnot (le_of_lt hmax)
        unfold pymin
        constructor
        · split
          · exact hdiv
          · exact zero_le_one
        · split
          · rename_i hlt
            exact le_of_lt hlt
          · exact le_refl 1
    have hmark : ∀ (ops : List InvOp) (inv : Inventory),
        0 ≤ inv.last_mark_price → (∀ op ∈ ops, 0 ≤ op.markPrice) →
        0 ≤ (inv.applyOps ops).last_mark_price := by
      intro ops
      induction ops with
      | nil => intro inv h _; exact h
      | cons op rest ih =>
        intro inv h hall
        have hop : 0 ≤ op.markPrice := hall op (List.mem_cons_self op rest)
        have hstep : 0 ≤ (inv.applyOp op).last_mark_price := by
          cases op with
          | price p t => exact hop
          | fill q s p t =>
            simp only [Inventory.applyOp, Inventory.update_on_fill, Inventory.update_price]
            exact hop
        have : Inventory.applyOps inv (op :: rest) = Inventory.applyOps (inv.applyOp op) rest := rfl
        rw [this]
        exact ih (inv.applyOp op) hstep (fun o ho => hall o (List.mem_cons_of_mem op ho))
    intro inv ops h hall
    exact hratio _ (hmark ops inv h hall)
  · intro inv q p t
    constructor
    · simp [Inventory.update_on_fill, Inventory.update_price]
    · simp [Inventory.update_on_fill, Inventory.update_price]

/-- C5 witness: a buy of 1 at mark price 5 keeps the ratio in [0, 1], and
the fill moves the position by exactly ±1. -/
theorem c5_inventory_ratio_bounds_witness :
    (0 ≤ (Inventory.applyOps {} [InvOp.fill 1 "buy" 5 0]).inventory_ratio ∧
      (Inventory.applyOps {} [InvOp.fill 1 "buy" 5 0]).inventory_ratio ≤ 1) ∧
    ((Inventory.update_on_fill {} 1 "buy" 5 0).position_qty = 0 + 1 ∧
      (Inventory.update_on_fill {} 1 "sell" 5 0).position_qty = 0 - 1) :=
  ⟨c5_inventory_ratio_bounds.1 {} [InvOp.fill 1 "buy" 5 0] (by norm_num)
     (by norm_num [InvOp.markPrice]),
   c5_inventory_ratio_bounds.2 {} 1 5 0⟩

/-- C9: the de-risk branch raises.  With the cooldown clear, house-money
and harvest not firing, regime Normal and inventory ratio 0.5 ≥
`derisk_min_inventory`, `_check_derisk` calls `_calculate_efficiency`,
which reads the nonexistent attribute `inventory.position_notional`
(class `Inventory` defines `notional_value` instead), so `evaluate`
raises AttributeError — modelled as `none` — instead of returning a
`(should_reduce, reason, target_ratio)` triple. -/
theorem c9_derisk_attribute_error :
    inventory_half.inventory_ratio = 1/2 ∧
    ({} : DeRiskConfig).derisk_min_inventory ≤ inventory_half.inventory_ratio ∧
    DeRiskEngine.evaluate {} 0 inventory_half {} 5000 false 0 .NORMAL 100 100 = none := by
  norm_num [DeRiskEngine.evaluate, DeRiskEngine.check_cooldown,
    DeRiskEngine.check_house_money, DeRiskEngine.check_harvest,
    DeRiskEngine.check_derisk, calculate_efficiency, Inventory.position_notional_attr,
    inventory_half, Inventory.inventory_ratio, Inventory.notional_value,
    Breakeven.price, pymin, pyabs]
  all_goals simp

/-- C6: breakeven bookkeeping.  A buy adds `price·qty` to cost, `qty` to
quantity, and the fee/slippage to their accumulators; a sell against a
positive book scales cost, quantity, fees and slippage by
`(1 − fill_qty/total_qty)` and then adds the new fee and slippage (the
quantity update `qty − fill_qty` equals that scaling); with positive
quantity the breakeven price is `(cost + fees + slippage) / qty`; and a
buy of q from a flat book followed by a sell of the same q leaves
`total_qty = 0`. -/
theorem c6_breakeven_bookkeeping :
    ∀ (b : Breakeven) (p q fee slip p' fee' slip' : ℚ),
      ((b.update_on_fill p q fee "buy" slip).total_cost = b.total_cost + p * q ∧
        (b.update_on_fill p q fee "buy" slip).total_qty = b.total_qty + q ∧
        (b.update_on_fill p q fee "buy" slip).total_fees = b.total_fees + fee ∧
        (b.update_on_fill p q fee "buy" slip).total_slippage = b.total_slippage + slip) ∧
      (0 < b.total_qty →
        ((b.update_on_fill p q fee "sell" slip).total_cost =
            b.total_cost * (1 - q / b.total_qty) ∧
          (b.update_on_fill p q fee "sell" slip).total_qty =
            b.total_qty * (1 - q / b.total_qty) ∧
          (b.update_on_fill p q fee "sell" slip).total_fees =
            b.total_fees * (1 - q / b.total_qty) + fee ∧
          (b.update_on_fill p q fee "sell" slip).total_slippage =
            b.total_slippage * (1 - q / b.total_qty) + slip)) ∧
      (0 < b.total_qty →
        b.price = (b.total_cost + b.total_fees + b.total_slippage) / b.total_qty) ∧
      (b.total_qty = 0 → 0 < q →
        ((b.update_on_fill p q fee "buy" slip).update_on_fill p' q fee' "sell" slip').total_qty
          = 0) := by
  intro b p q fee slip p' fee' slip'
  refine ⟨?_, ?_, ?_, ?_⟩
  · simp [Breakeven.update_on_fill]
  · intro hq
    have hne : b.total_qty ≠ 0 := ne_of_gt hq
    simp only [Breakeven.update_on_fill, if_neg (by decide : ¬ ("sell" : String) = "buy"),
      if_pos rfl, if_pos hq]
    refine ⟨rfl, ?_, rfl, rfl⟩
    field_simp
  · intro hq
    unfold Breakeven.price
    rw [if_neg (ne_of_gt hq)]
  · intro h0 hq
    simp [Breakeven.update_on_fill, h0, hq]

/-- C6 witness: a buy of 2 at 100 (fee 1) from a flat book, then a sell of
2 at 110 (fee 1): the stated field equations hold and the round trip
flattens the book. -/
theorem c6_breakeven_bookkeeping_witness :
    ((Breakeven.update_on_fill {} 100 2 1 "buy" 0).total_cost = 0 + 100 * 2 ∧
      (Breakeven.update_on_fill {} 100 2 1 "buy" 0).total_qty = 0 + 2 ∧
      (Breakeven.update_on_fill {} 100 2 1 "buy" 0).total_fees = 0 + 1 ∧
      (Breakeven.update_on_fill {} 100 2 1 "buy" 0).total_slippage = 0 + 0) ∧
    ((Breakeven.update_on_fill {} 100 2 1 "buy" 0).update_on_fill 110 2 1 "sell" 0).total_qty
      = 0 :=
  ⟨(c6_breakeven_bookkeeping {} 100 2 1 0 110 1 0).1,
   (c6_breakeven_bookkeeping {} 100 2 1 0 110 1 0).2.2.2 rfl (by norm_num)⟩

/-- C10: flat-book guards.  With `total_qty = 0`, `Breakeven.price` and
`Breakeven.avg_cost_price` return 0 rather than dividing; and the harvest
check returns no-harvest whenever the breakeven price is ≤ 0, so its
profit division is never reached on a flat book. -/
theorem c10_flat_breakeven_guard :
    (∀ b : Breakeven, b.total_qty = 0 → b.price = 0 ∧ b.avg_cost_price = 0) ∧
    (∀ (e : DeRiskEngine) (ts : ℚ) (inv : Inventory) (b : Breakeven) (cp : ℚ)
        (ov : Bool) (ovm : ℚ) (st : StrategyState),
      b.price ≤ 0 →
      (e.check_harvest ts inv b cp ov ovm st).1.1 = false) := by
  constructor
  · intro b h
    constructor
    · unfold Breakeven.price
      rw [if_pos h]
    · unfold Breakeven.avg_cost_price
      rw [if_pos h]
  · intro e ts inv b cp ov ovm st h
    unfold DeRiskEngine.check_harvest
    repeat' split
    all_goals simp_all

/-- C10 witness: the default (flat) breakeven evaluates both prices to 0,
and the harvest check at that breakeven reports no harvest. -/
theorem c10_flat_breakeven_guard_witness :
    (({} : Breakeven).price = 0 ∧ ({} : Breakeven).avg_cost_price = 0) ∧
    (DeRiskEngine.check_harvest {} 0 {} {} 100 true 60 .NORMAL).1.1 = false :=
  ⟨c10_flat_breakeven_guard.1 {} rfl,
   c10_flat_breakeven_guard.2 {} 0 {} {} 100 true 60 .NORMAL
     (by norm_num [Breakeven.price])⟩

/-- `PriceBoundaryTrigger.check` proposes exactly from Normal with the
price inside one of the two buffer bands. -/
theorem pb_check_triggered_iff (t : PriceBoundaryTrigger) (ts : ℚ) :
    (t.check ts).triggered = true ↔
      (t.current_state = .NORMAL ∧
        (t.current_mark_price ≤ t.outer_range_low + t.current_atr * t.buffer_atr_mult ∨
          t.outer_range_high - t.current_atr * t.buffer_atr_mult ≤ t.current_mark_price)) := by
  unfold PriceBoundaryTrigger.check
  by_cases h1 : t.current_state = .NORMAL
  · rw [if_neg (not_not_intro h1)]
    dsimp only
    by_cases h2 : (t.current_mark_price ≤ t.outer_range_low + t.current_atr * t.buffer_atr_mult ∨
        t.outer_range_high - t.current_atr * t.buffer_atr_mult ≤ t.current_mark_price)
    · rw [if_pos h2]
      exact ⟨fun _ => ⟨h1, h2⟩, fun _ => rfl⟩
    · rw [if_neg h2]
      constructor
      · intro hc
        exact absurd hc Bool.false_ne_true
      · intro hc
        exact absurd hc.2 h2
  · rw [if_pos h1]
    constructor
    · intro hc
      exact absurd hc Bool.false_ne_true
    · intro hc
      exact absurd hc.1 h1

/-- A triggered `PriceBoundaryTrigger.check` targets Defensive. -/
theorem pb_check_target (t : PriceBoundaryTrigger) (ts : ℚ)
    (h : (t.check ts).triggered = true) :
    (t.check ts).target_state = some .DEFENSIVE := by
  unfold PriceBoundaryTrigger.check at h ⊢
  by_cases h1 : t.current_state = .NORMAL
  · rw [if_neg (not_not_intro h1)] at h ⊢
    dsimp only at h ⊢
    by_cases h2 : (t.current_mark_price ≤ t.outer_range_low + t.current_atr * t.buffer_atr_mult ∨
        t.outer_range_high - t.current_atr * t.buffer_atr_mult ≤ t.current_mark_price)
    · rw [if_pos h2]
      rfl
    · rw [if_neg h2] at h
      exact absurd h Bool.false_ne_true
  · rw [if_pos h1] at h
    exact absurd h Bool.false_ne_true

/-- `PriceBoundaryTrigger.check_recovery` proposes exactly from Defensive,
after the minimum hold (when `state_since` is known), with the price in
the inner safe zone. -/
theorem pb_recovery_triggered_iff (t : PriceBoundaryTrigger) (ts : ℚ) :
    (t.check_recovery ts).triggered = true ↔
      (t.current_state = .DEFENSIVE ∧ pb_hold_elapsed t ts ∧ pb_in_safe_zone t) := by
  unfold PriceBoundaryTrigger.check_recovery
  by_cases h1 : t.current_state = .DEFENSIVE
  · rw [if_neg (not_not_intro h1)]
    rcases ht : t.state_since with _ | since
    · dsimp only
      rw [if_neg (by decide : ¬ (false = true))]
      by_cases h3 : (t.outer_range_low + t.current_atr * t.buffer_atr_mult * (3/2) ≤
            t.current_mark_price ∧
          t.current_mark_price ≤ t.outer_range_high - t.current_atr * t.buffer_atr_mult * (3/2))
      · rw [if_pos h3]
        refine ⟨fun _ => ⟨h1, ?_, h3⟩, fun _ => rfl⟩
        intro since hsince
        rw [ht] at hsince
        cases hsince
      · rw [if_neg h3]
        constructor
        · intro hc
          exact absurd hc Bool.false_ne_true
        · intro hc
          exact absurd hc.2.2 h3
    · dsimp only
      by_cases h2 : (ts - since) / 60 < t.min_state_hold_minutes
      · rw [if_pos (decide_eq_true h2)]
        constructor
        · intro hc
          exact absurd hc Bool.false_ne_true
        · intro hc
          have := hc.2.1 since ht
          exact absurd h2 (not_lt.mpr this)
      · rw [if_neg (by simpa using h2)]
        by_cases h3 : (t.outer_range_low + t.current_atr * t.buffer_atr_mult * (3/2) ≤
              t.current_mark_price ∧
            t.current_mark_price ≤ t.outer_range_high - t.current_atr * t.buffer_atr_mult * (3/2))
        · rw [if_pos h3]
          refine ⟨fun _ => ⟨h1, ?_, h3⟩, fun _ => rfl⟩
          intro s hs
          rw [ht] at hs
          cases hs
          exact not_lt.mp h2
        · rw [if_neg h3]
          constructor
          · intro hc
            exact absurd hc Bool.false_ne_true
          · intro hc
            exact absurd hc.2.2 h3
  · rw [if_pos h1]
    constructor
    · intro hc
      exact absurd hc Bool.false_ne_true
    · intro hc
      exact absurd hc.1 h1

/-- A triggered `PriceBoundaryTrigger.check_recovery` targets Normal. -/
theorem pb_recovery_target (t : PriceBoundaryTrigger) (ts : ℚ)
    (h : (t.check_recovery ts).triggered = true) :
    (t.check_recovery ts).target_state = some .NORMAL := by
  unfold PriceBoundaryTrigger.check_recovery at h ⊢
  by_cases h1 : t.current_state = .DEFENSIVE
  · rw [if_neg (not_not_intro h1)] at h ⊢
    rcases ht : t.state_since with _ | since
    · rw [ht] at h
      dsimp only at h ⊢
      rw [if_neg (by decide : ¬ (false = true))] at h ⊢
      by_cases h3 : (t.outer_range_low + t.current_atr * t.buffer_atr_mult * (3/2) ≤
            t.current_mark_price ∧
          t.current_mark_price ≤ t.outer_range_high - t.current_atr * t.buffer_atr_mult * (3/2))
      · rw [if_pos h3]
        rfl
      · rw [if_neg h3] at h
        exact absurd h Bool.false_ne_true
    · rw [ht] at h
      dsimp only at h ⊢
      by_cases h2 : (ts - since) / 60 < t.min_state_hold_minutes
      · rw [if_pos (decide_eq_true h2)] at h
        exact absurd h Bool.false_ne_true
      · rw [if_neg (by simpa using h2)] at h ⊢
        by_cases h3 : (t.outer_range_low + t.current_atr * t.buffer_atr_mult * (3/2) ≤
              t.current_mark_price ∧
            t.current_mark_price ≤ t.outer_range_high - t.current_atr * t.buffer_atr_mult * (3/2))
        · rw [if_pos h3]
          rfl
        · rw [if_neg h3] at h
          exact absurd h Bool.false_ne_true
  · rw [if_pos h1] at h
    exact absurd h Bool.false_ne_true

/-- C7 counterexample: with state Normal entered at time 0 (held 0 minutes,
well under the 15-minute minimum hold) and the mark price 103 inside the
lower buffer band [100, 105], `check` at time 0 already proposes
Defensive — the minimum-hold guard is not consulted by `check`. -/
theorem c7_no_hold_guard_counterexample :
    (pb_trigger_fresh.check 0).triggered = true ∧
    (pb_trigger_fresh.check 0).target_state = some .DEFENSIVE ∧
    pb_trigger_fresh.state_since = some 0 ∧
    ((0 : ℚ) - 0) / 60 < pb_trigger_fresh.min_state_hold_minutes := by
  have htrig : (pb_trigger_fresh.check 0).triggered = true := by
    rw [pb_check_triggered_iff]
    norm_num [pb_trigger_fresh]
  exact ⟨htrig, pb_check_target pb_trigger_fresh 0 htrig, rfl,
    by norm_num [pb_trigger_fresh]⟩

/-- C7 (amended): `check` proposes Normal→Defensive exactly when the state
is Normal and the mark price is at or inside a buffer band
(`price ≤ outer_low + ATR·buffer_atr_mult` or
`outer_high − ATR·buffer_atr_mult ≤ price`); no minimum-hold condition
applies to that proposal.  The minimum-hold guard instead applies to
recovery: `check_recovery` proposes recovery to Normal exactly when the
state is Defensive, the state has been held at least
`min_state_hold_minutes` (when `state_since` is known), and the price is
inside `outer_range ∓ 1.5·(ATR·buffer_atr_mult)`. -/
theorem c7_price_boundary_guards :
    ∀ (t : PriceBoundaryTrigger) (ts : ℚ),
      ((t.check ts).triggered = true ↔
        (t.current_state = .NORMAL ∧
          (t.current_mark_price ≤ t.outer_range_low + t.current_atr * t.buffer_atr_mult ∨
            t.outer_range_high - t.current_atr * t.buffer_atr_mult ≤ t.current_mark_price))) ∧
      ((t.check ts).triggered = true → (t.check ts).target_state = some .DEFENSIVE) ∧
      ((t.check_recovery ts).triggered = true ↔
        (t.current_state = .DEFENSIVE ∧ pb_hold_elapsed t ts ∧ pb_in_safe_zone t)) ∧
      ((t.check_recovery ts).triggered = true →
        (t.check_recovery ts).target_state = some .NORMAL) :=
  fun t ts => ⟨pb_check_triggered_iff t ts, pb_check_target t ts,
    pb_recovery_triggered_iff t ts, pb_recovery_target t ts⟩

/-- C7 witness: the fresh-Normal trigger state fires the Defensive
proposal through the characterization. -/
theorem c7_price_boundary_guards_witness :
    (pb_trigger_fresh.check 0).triggered = true :=
  (c7_price_boundary_guards pb_trigger_fresh 0).1.mpr (by norm_num [pb_trigger_fresh])

/-- The inventory trigger proposes Normal only from Defensive with the
ratio at or below `inv_back_to_normal`. -/
theorem inventory_check_to_normal (t : InventoryTrigger) (ts : ℚ)
    (h : (t.check ts).target_state = some .NORMAL) :
    t.current_state = .DEFENSIVE ∧
      t.current_inventory_ratio ≤ t.inv_back_to_normal := by
  unfold InventoryTrigger.check at h
  dsimp only at h
  split_ifs at h with h1 h2 h3 h4
  · simp [TransitionResult.to_damage_control] at h
  · simp [TransitionResult.to_damage_control] at h
  · simp [TransitionResult.to_defensive] at h
  · exact ⟨h4.2, h4.1⟩
  · simp [TransitionResult.no_transition] at h

/-- A triggered emergency check targets EmergencyStop. -/
theorem emergency_check_target (t : EmergencyTrigger) (ts : ℚ)
    (h : (t.check ts).triggered = true) :
    (t.check ts).target_state = some .EMERGENCY_STOP := by
  unfold EmergencyTrigger.check at h ⊢
  dsimp only at h ⊢
  split_ifs at h ⊢
  all_goals first
    | rfl
    | exact absurd h Bool.false_ne_true

/-- A triggered risk-budget check targets DamageControl. -/
theorem budget_check_target (t : RiskBudgetTrigger) (ts : ℚ)
    (h : (t.check ts).triggered = true) :
    (t.check ts).target_state = some .DAMAGE_CONTROL := by
  unfold RiskBudgetTrigger.check at h ⊢
  split_ifs at h ⊢
  all_goals first
    | rfl
    | exact absurd h Bool.false_ne_true

/-- C2 counterexample: (a) with inventory ratio 0.5 (above
`inv_back_to_normal` = 0.40) but the price in the boundary safe zone, the
bar-close recovery check already proposes Normal — the four conditions are
not all required; (b) `evaluate_on_fill` proposes recovery to Normal
through the inventory trigger's recovery branch, so recovery proposals are
not confined to bar-close evaluation. -/
theorem c2_recovery_counterexample :
    ((riskengine_pb.check_recovery 0).map (fun r => r.1) = some (some .NORMAL)) ∧
    riskengine_pb.inventory_trigger.inv_back_to_normal <
      riskengine_pb.inventory_trigger.current_inventory_ratio ∧
    (((riskengine_defensive.evaluate_on_fill 0 (3/10) 0 0).1).map (fun r => r.1) =
      some (some .NORMAL)) := by
  refine ⟨?_, by norm_num [riskengine_pb], ?_⟩
  · norm_num [riskengine_pb, RiskEngine.check_recovery, InventoryTrigger.check,
      PriceBoundaryTrigger.check_recovery, TransitionResult.no_transition,
      TransitionResult.to_normal, TransitionResult.to_damage_control,
      TransitionResult.to_defensive]
  · norm_num [riskengine_defensive, RiskEngine.evaluate_on_fill,
      InventoryTrigger.update, RiskBudgetTrigger.update, EmergencyTrigger.check,
      InventoryTrigger.check, RiskBudgetTrigger.check, RiskEngine.write_risk_trigger,
      TransitionResult.no_transition, TransitionResult.to_normal,
      TransitionResult.to_damage_control, TransitionResult.to_defensive,
      TransitionResult.to_emergency_stop, pyabs]

/-- C2 (amended): a recovery proposal from the bar-close recovery check
always targets Normal and holds under one of three path conditions —
(inventory path) the inventory trigger records Defensive with ratio at or
below `inv_back_to_normal`; (price path) the price-boundary trigger
records Defensive with the minimum hold elapsed and the price in the
inner safe zone; (all-clear path) no vol spike, engine state Defensive,
ratio at or below `inv_back_to_normal` and the structural trigger not
outside.  The four conditions of the claim are not all required at once.
Moreover on-fill evaluation can also propose recovery: whenever it
proposes Normal, the engine was Defensive with the fill-time inventory
ratio at or below `inv_back_to_normal`. -/
theorem c2_recovery_guards :
    (∀ (e : RiskEngine) (ts : ℚ) (res : Option StrategyState × String),
      e.check_recovery ts = some res →
      res.1 = some .NORMAL ∧
        ((e.inventory_trigger.current_state = .DEFENSIVE ∧
            e.inventory_trigger.current_inventory_ratio ≤
              e.inventory_trigger.inv_back_to_normal) ∨
          (e.price_boundary_trigger.current_state = .DEFENSIVE ∧
            pb_hold_elapsed e.price_boundary_trigger ts ∧
            pb_in_safe_zone e.price_boundary_trigger) ∨
          (e.vol_spike_detector.is_spike = false ∧ e.current_state = .DEFENSIVE ∧
            e.inventory_trigger.current_inventory_ratio ≤
              e.inventory_trigger.inv_back_to_normal ∧
            e.structural_trigger.is_outside = false))) ∧
    (∀ (e : RiskEngine) (ts inv mu dd : ℚ) (r : String),
      (e.evaluate_on_fill ts inv mu dd).1 = some (some .NORMAL, r) →
      e.current_state = .DEFENSIVE ∧ inv ≤ e.inventory_trigger.inv_back_to_normal) := by
  constructor
  · intro e ts res h
    unfold RiskEngine.check_recovery at h
    dsimp only at h
    split_ifs at h with h1 h2 h3 h4 h5
    · rcases h1 with ⟨_, htgt⟩
      have hfields := inventory_check_to_normal e.inventory_trigger ts htgt
      cases h
      exact ⟨htgt, Or.inl hfields⟩
    · have htgt := pb_recovery_target e.price_boundary_trigger ts h2
      have hfields := (pb_recovery_triggered_iff e.price_boundary_trigger ts).mp h2
      cases h
      exact ⟨htgt, Or.inr (Or.inl hfields)⟩
    · cases h
      refine ⟨rfl, Or.inr (Or.inr ⟨?_, h3.2, h4, ?_⟩)⟩
      · simpa using h3.1
      · simpa using h5
  · intro e ts inv mu dd r h
    unfold RiskEngine.evaluate_on_fill at h
    dsimp only at h
    split_ifs at h with h1 h2 h3
    · dsimp only at h
      have htgt := emergency_check_target _ ts h1
      rw [htgt] at h
      simp at h
    · dsimp only at h
      simp only [Option.some.injEq, Prod.mk.injEq] at h
      have hfields := inventory_check_to_normal _ ts h.1
      simp only [InventoryTrigger.update] at hfields
      exact ⟨hfields.1, hfields.2⟩
    · dsimp only at h
      have htgt := budget_check_target _ ts h3
      rw [htgt] at h
      simp at h

/-- C2 witness: the on-fill recovery proposal at ratio 0.3 implies the
engine was Defensive with 0.3 under the recovery threshold. -/
theorem c2_recovery_guards_witness :
    riskengine_defensive.current_state = .DEFENSIVE ∧
    (3/10 : ℚ) ≤ riskengine_defensive.inventory_trigger.inv_back_to_normal :=
  c2_recovery_guards.2 riskengine_defensive 0 (3/10) 0 0 "inventory_recovered"
    (by norm_num [riskengine_defensive, RiskEngine.evaluate_on_fill,
      InventoryTrigger.update, RiskBudgetTrigger.update, EmergencyTrigger.check,
      InventoryTrigger.check, RiskBudgetTrigger.check, RiskEngine.write_risk_trigger,
      TransitionResult.no_transition, TransitionResult.to_normal,
      TransitionResult.to_damage_control, TransitionResult.to_defensive,
      TransitionResult.to_emergency_stop, pyabs])

/-- Every order the reduce-only loop emits is a reduce-only sell. -/
theorem reduce_only_loop_orders (cp bs : ℚ) (M : Nat) :
    ∀ (l : List Nat) (e : GridEngine) (o : GridOrder),
      o ∈ (reduce_only_loop cp bs M l e).1 → o.side = .SELL ∧ o.reduce_only = true := by
  intro l
  induction l with
  | nil =>
    intro e o ho
    simp [reduce_only_loop] at ho
  | cons i rest ih =>
    intro e o ho
    simp only [reduce_only_loop] at ho
    rcases List.mem_cons.mp ho with hhead | htail
    · subst hhead
      exact ⟨rfl, rfl⟩
    · exact ih _ o htail

/-- Every order `_generate_reduce_only_orders` emits is a reduce-only sell. -/
theorem generate_reduce_only_orders_shape (e : GridEngine) (cp inv : ℚ) (o : GridOrder)
    (ho : o ∈ (e.generate_reduce_only_orders cp inv).1) :
    o.side = .SELL ∧ o.reduce_only = true := by
  unfold GridEngine.generate_reduce_only_orders at ho
  split_ifs at ho
  · simp at ho
  · exact reduce_only_loop_orders _ _ _ _ _ o ho

/-- C3 counterexample: with an attached advantage gate reporting
`opportunity_valid = false` and inventory ratio 0.5, `generate_orders` in
regime EmergencyStop returns five reduce-only sells — not the empty set
the claim requires — because the gate check precedes the regime check. -/
theorem c3_emergency_not_empty_counterexample :
    (gridengine_invalid_gate.generate_orders 100 .EMERGENCY_STOP (1/2)).1 ≠ [] ∧
    (gridengine_invalid_gate.generate_orders 100 .EMERGENCY_STOP (1/2)).1.length = 5 := by
  have h5 : (gridengine_invalid_gate.generate_orders 100 .EMERGENCY_STOP (1/2)).1.length = 5 := by
    norm_num [gridengine_invalid_gate, GridEngine.generate_orders,
      GridEngine.generate_reduce_only_orders, reduce_only_loop,
      GridEngine.calculate_base_step, GridEngine.calculate_edge_decay,
      GridEngine.create_order, show List.range 5 = [0, 1, 2, 3, 4] from rfl]
  refine ⟨fun hnil => ?_, h5⟩
  rw [hnil] at h5
  exact absurd h5 (by decide)

/-- C3 (amended): regime EmergencyStop yields the empty set only when the
advantage gate is absent or reports a valid opportunity; when an attached
gate reports `opportunity_valid = false`, the generator emits only
reduce-only sell orders regardless of regime — including EmergencyStop,
where the output is therefore not empty once inventory is positive. -/
theorem c3_gate_overrides_regime :
    (∀ (e : GridEngine) (p inv : ℚ),
      (∀ g, e.advantage_gate = some g → g.opportunity_valid = true) →
      (e.generate_orders p .EMERGENCY_STOP inv).1 = []) ∧
    (∀ (e : GridEngine) (p inv : ℚ) (s : StrategyState) (g : AdvantageGateView),
      e.advantage_gate = some g → g.opportunity_valid = false →
      ∀ o ∈ (e.generate_orders p s inv).1, o.side = .SELL ∧ o.reduce_only = true) := by
  constructor
  · intro e p inv hgate
    unfold GridEngine.generate_orders
    rcases hg : e.advantage_gate with _ | g
    · simp [hg, GridEngine.generate_orders_by_state]
    · have hv := hgate g hg
      simp [hg, hv, GridEngine.generate_orders_by_state]
  · intro e p inv s g hg hv o ho
    unfold GridEngine.generate_orders at ho
    rw [show ({ e with current_price := p } : GridEngine).advantage_gate = e.advantage_gate
      from rfl, hg] at ho
    dsimp only at ho
    rw [hv, if_pos (by decide : ¬ (false = true))] at ho
    exact generate_reduce_only_orders_shape _ _ _ o ho

/-- C3 witness: a valid gate keeps EmergencyStop empty, and with an invalid
gate every generated order (here in Normal) is a reduce-only sell. -/
theorem c3_gate_overrides_regime_witness :
    (gridengine_valid_gate.generate_orders 100 .EMERGENCY_STOP (1/2)).1 = [] ∧
    ∀ o ∈ (gridengine_invalid_gate.generate_orders 100 .NORMAL (1/2)).1,
      o.side = .SELL ∧ o.reduce_only = true :=
  ⟨c3_gate_overrides_regime.1 gridengine_valid_gate 100 (1/2)
      (fun g hg => by
        simp only [gridengine_valid_gate] at hg
        cases hg
        rfl),
   c3_gate_overrides_regime.2 gridengine_invalid_gate 100 (1/2) .NORMAL
      ⟨false, (0, 0)⟩ rfl rfl⟩

/-- A passed mode check constrains the order by the manager's mode. -/
theorem mode_check_pass (m : OrderManager) (o : GridOrder)
    (h : (m.check_mode_allows_order o).1 = true) :
    m.order_mode ≠ .KILL_SWITCH ∧
    (m.order_mode = .REDUCE_ONLY → o.reduce_only = true) ∧
    (m.order_mode = .NO_NEW_BUYS → o.side = .SELL ∨ o.reduce_only = true) := by
  unfold OrderManager.check_mode_allows_order at h
  split_ifs at h with h1 h2 h3
  refine ⟨h1, ?_, ?_⟩
  · intro hm
    by_contra hro
    exact h2 ⟨hm, hro⟩
  · intro hm
    by_cases hside : o.side = .BUY
    · by_cases hro : o.reduce_only = true
      · exact Or.inr hro
      · exact absurd ⟨hm, hside, hro⟩ h3
    · left
      cases hs : o.side
      · exact absurd hs hside
      · rfl

/-- In KillSwitch mode the post-freeze checks refuse every order. -/
theorem checks_kill_switch (m1 : OrderManager) (o : GridOrder) (ts : ℚ)
    (hk : m1.order_mode = .KILL_SWITCH) :
    (m1.can_place_order_checks o ts).1.1 = false := by
  unfold OrderManager.can_place_order_checks OrderManager.check_mode_allows_order
  dsimp only
  rw [if_pos hk]
  simp

/-- A passing run of the post-freeze checks passed the mode check. -/
theorem checks_pass_mode (m1 : OrderManager) (o : GridOrder) (ts : ℚ)
    (h : (m1.can_place_order_checks o ts).1.1 = true) :
    (m1.check_mode_allows_order o).1 = true := by
  by_cases hm : (m1.check_mode_allows_order o).1 = true
  · exact hm
  · unfold OrderManager.can_place_order_checks at h
    dsimp only at h
    rw [if_pos hm] at h
    dsimp only at h
    exact absurd h hm

/-- A mode block inside the post-freeze checks appends exactly the
ORDER_BLOCKED event. -/
theorem checks_mode_block_journal (m1 : OrderManager) (o : GridOrder) (ts : ℚ)
    (hj : m1.has_journal = true) (r : String)
    (h : (m1.can_place_order_checks o ts).1 = (false, r))
    (hdup : r ≠ "duplicate_order") :
    (m1.can_place_order_checks o ts).2.journal =
      m1.journal ++ [m1.order_blocked_event o r ts] := by
  by_cases hm : (m1.check_mode_allows_order o).1 = true
  · exfalso
    unfold OrderManager.can_place_order_checks at h
    dsimp only at h
    rw [if_neg (not_not_intro hm)] at h
    by_cases hd : o.client_order_id ∈ m1.processed_order_ids
    · rw [if_pos hd] at h
      dsimp only at h
      simp only [Prod.mk.injEq] at h
      exact hdup h.2.symm
    · rw [if_neg hd] at h
      dsimp only at h
      simp only [Prod.mk.injEq] at h
      exact absurd h.1 (by decide)
  · unfold OrderManager.can_place_order_checks at h ⊢
    dsimp only at h ⊢
    rw [if_pos hm] at h ⊢
    dsimp only at h ⊢
    have hr : (m1.check_mode_allows_order o).2 = r := by
      rw [h]
    rw [hr]
    unfold OrderManager.writeEvent
    rw [if_pos hj]

/-- C4: order-manager mode enforcement.  In KillSwitch mode no placement
succeeds; in ReduceOnly mode every order that passes is reduce-only; in
NoNewBuys mode every order that passes is a sell or reduce-only; in Full
mode the mode gate blocks nothing; and every mode block (a refusal whose
reason is neither the freeze nor the duplicate guard) appends exactly the
ORDER_BLOCKED audit event when a journal is attached. -/
theorem c4_mode_enforcement :
    ∀ (m : OrderManager) (o : GridOrder) (ts : ℚ),
      (m.order_mode = .KILL_SWITCH → (m.can_place_order o ts).1.1 = false) ∧
      (m.order_mode = .REDUCE_ONLY → (m.can_place_order o ts).1.1 = true →
        o.reduce_only = true) ∧
      (m.order_mode = .NO_NEW_BUYS → (m.can_place_order o ts).1.1 = true →
        o.side = .SELL ∨ o.reduce_only = true) ∧
      (m.order_mode = .FULL → m.check_mode_allows_order o = (true, "")) ∧
      (m.has_journal = true → ∀ r : String,
        (m.can_place_order o ts).1 = (false, r) →
        r ≠ "order_manager_frozen" → r ≠ "duplicate_order" →
        (m.can_place_order o ts).2.journal = m.journal ++ [m.order_blocked_event o r ts]) := by
  intro m o ts
  have hsplit :
      m.can_place_order o ts = ((false, "order_manager_frozen"), m) ∨
      ∃ m1 : OrderManager, m1.order_mode = m.order_mode ∧ m1.journal = m.journal ∧
        m1.has_journal = m.has_journal ∧
        m1.order_blocked_event = m.order_blocked_event ∧
        m.can_place_order o ts = m1.can_place_order_checks o ts := by
    unfold OrderManager.can_place_order
    split_ifs with h1
    · rcases hfu : m.freeze_until with _ | u
      · dsimp only
        exact Or.inl rfl
      · dsimp only
        split_ifs with h2
        · exact Or.inr ⟨{ m with is_frozen := false, freeze_until := none },
            rfl, rfl, rfl, rfl, rfl⟩
        · exact Or.inl rfl
    · exact Or.inr ⟨m, rfl, rfl, rfl, rfl, rfl⟩
  refine ⟨?_, ?_, ?_, ?_, ?_⟩
  · intro hk
    rcases hsplit with h | ⟨m1, hmode, _, _, _, heq⟩
    · rw [h]
    · rw [heq]
      exact checks_kill_switch m1 o ts (hmode.trans hk)
  · intro hro hpass
    rcases hsplit with h | ⟨m1, hmode, _, _, _, heq⟩
    · rw [h] at hpass
      exact absurd hpass Bool.false_ne_true
    · rw [heq] at hpass
      have := mode_check_pass m1 o (checks_pass_mode m1 o ts hpass)
      exact this.2.1 (hmode.trans hro)
  · intro hnb hpass
    rcases hsplit with h | ⟨m1, hmode, _, _, _, heq⟩
    · rw [h] at hpass
      exact absurd hpass Bool.false_ne_true
    · rw [heq] at hpass
      have := mode_check_pass m1 o (checks_pass_mode m1 o ts hpass)
      exact this.2.2 (hmode.trans hnb)
  · intro hf
    unfold OrderManager.check_mode_allows_order
    rw [hf]
    rw [if_neg (by decide : ¬ (OrderMode.FULL = OrderMode.KILL_SWITCH))]
    rw [if_neg (by simp : ¬ (OrderMode.FULL = OrderMode.REDUCE_ONLY ∧ ¬ o.reduce_only = true))]
    rw [if_neg (by simp : ¬ (OrderMode.FULL = OrderMode.NO_NEW_BUYS ∧
      o.side = OrderSide.BUY ∧ ¬ o.reduce_only = true))]
  · intro hj r hres hfrozen hdup
    rcases hsplit with h | ⟨m1, _, hjournal, hhas, hevent, heq⟩
    · rw [h] at hres
      exact absurd (by simpa using congrArg Prod.snd hres : "order_manager_frozen" = r).symm
        hfrozen
    · rw [heq] at hres ⊢
      rw [← hjournal, ← hevent]
      exact checks_mode_block_journal m1 o ts (hhas.trans hj) r hres hdup

/-- C4 witness: in kill-switch mode a plain buy at time 0 is refused, the
Full mode gate would block nothing, and the block appends the
ORDER_BLOCKED event. -/
theorem c4_mode_enforcement_witness :
    (om_kill_switch.can_place_order order_plain_buy 0).1.1 = false ∧
    (om_kill_switch.can_place_order order_plain_buy 0).2.journal =
      om_kill_switch.journal ++
        [om_kill_switch.order_blocked_event order_plain_buy "kill_switch_active" 0] :=
  ⟨(c4_mode_enforcement om_kill_switch order_plain_buy 0).1 rfl,
   (c4_mode_enforcement om_kill_switch order_plain_buy 0).2.2.2.2 rfl "kill_switch_active"
     rfl (by decide) (by decide)⟩

/-- Appending a non-CANCEL_RATE_EXCEEDED event leaves the count alone. -/
theorem countCancelRate_append_other (j : List AuditEvent) (e : AuditEvent)
    (he : e.event_type ≠ .CANCEL_RATE_EXCEEDED) :
    countCancelRateEvents (j ++ [e]) = countCancelRateEvents j := by
  unfold countCancelRateEvents
  rw [List.filter_append, List.length_append]
  have : List.filter (fun x => decide (x.event_type = .CANCEL_RATE_EXCEEDED)) [e] = [] := by
    simp [List.filter, he]
  rw [this]
  rfl

/-- Appending a CANCEL_RATE_EXCEEDED event bumps the count by one. -/
theorem countCancelRate_append_rate (j : List AuditEvent) (e : AuditEvent)
    (he : e.event_type = .CANCEL_RATE_EXCEEDED) :
    countCancelRateEvents (j ++ [e]) = countCancelRateEvents j + 1 := by
  unfold countCancelRateEvents
  rw [List.filter_append, List.length_append]
  have : List.filter (fun x => decide (x.event_type = .CANCEL_RATE_EXCEEDED)) [e] = [e] := by
    simp [List.filter, he]
  rw [this]
  rfl

/-- The post-freeze checks preserve the throttle state and never write a
CANCEL_RATE_EXCEEDED event. -/
theorem checks_preserves_throttle (m1 : OrderManager) (o : GridOrder) (ts : ℚ) :
    (m1.can_place_order_checks o ts).2.cancel_timestamps = m1.cancel_timestamps ∧
    (m1.can_place_order_checks o ts).2.throttle_config = m1.throttle_config ∧
    (m1.can_place_order_checks o ts).2.has_journal = m1.has_journal ∧
    countCancelRateEvents (m1.can_place_order_checks o ts).2.journal =
      countCancelRateEvents m1.journal := by
  unfold OrderManager.can_place_order_checks OrderManager.writeEvent
  dsimp only
  split_ifs with h1 h2 h3 h4 <;>
    refine ⟨rfl, rfl, rfl, ?_⟩ <;>
    first
      | rfl
      | exact countCancelRate_append_other _ _ (fun hc => nomatch hc)

/-- `can_place_order` preserves the throttle state and the
CANCEL_RATE_EXCEEDED count. -/
theorem can_place_preserves_throttle (m : OrderManager) (o : GridOrder) (ts : ℚ) :
    (m.can_place_order o ts).2.cancel_timestamps = m.cancel_timestamps ∧
    (m.can_place_order o ts).2.throttle_config = m.throttle_config ∧
    (m.can_place_order o ts).2.has_journal = m.has_journal ∧
    countCancelRateEvents (m.can_place_order o ts).2.journal =
      countCancelRateEvents m.journal := by
  unfold OrderManager.can_place_order
  split_ifs with h1
  · rcases m.freeze_until with _ | u
    · exact ⟨rfl, rfl, rfl, rfl⟩
    · dsimp only
      split_ifs with h2
      · exact checks_preserves_throttle _ o ts
      · exact ⟨rfl, rfl, rfl, rfl⟩
  · exact checks_preserves_throttle m o ts

/-- The desired-side sync scan preserves the throttle state and the
CANCEL_RATE_EXCEEDED count. -/
theorem scan_desired_preserves_throttle (ts : ℚ) (keys : List (Int × OrderSide)) :
    ∀ (l : List ((Int × OrderSide) × GridOrder)) (m : OrderManager),
      (sync_scan_desired ts keys l m).2.cancel_timestamps = m.cancel_timestamps ∧
      (sync_scan_desired ts keys l m).2.throttle_config = m.throttle_config ∧
      (sync_scan_desired ts keys l m).2.has_journal = m.has_journal ∧
      countCancelRateEvents (sync_scan_desired ts keys l m).2.journal =
        countCancelRateEvents m.journal := by
  intro l
  induction l with
  | nil => exact fun m => ⟨rfl, rfl, rfl, rfl⟩
  | cons kv rest ih =>
    intro m
    unfold sync_scan_desired
    rcases kv with ⟨key, o⟩
    dsimp only
    split_ifs with h1 <;>
      first
        | exact ih m
        | (have hstep := can_place_preserves_throttle m o ts
           have hrest := ih (m.can_place_order o ts).2
           refine ⟨?_, ?_, ?_, ?_⟩
           · show (sync_scan_desired ts keys rest
               (m.can_place_order o ts).2).2.cancel_timestamps = _
             rw [hrest.1, hstep.1]
           · show (sync_scan_desired ts keys rest
               (m.can_place_order o ts).2).2.throttle_config = _
             rw [hrest.2.1, hstep.2.1]
           · show (sync_scan_desired ts keys rest
               (m.can_place_order o ts).2).2.has_journal = _
             rw [hrest.2.2.1, hstep.2.2.1]
           · show countCancelRateEvents (sync_scan_desired ts keys rest
               (m.can_place_order o ts).2).2.journal = _
             rw [hrest.2.2.2, hstep.2.2.2])

/-- C8: cancel-churn throttling.  Whenever the pending cancellations of a
`sync_orders` call would push the rolling 60-second window count past
`cancel_rate_limit_per_minute`, the call returns no placements and no
cancellations, the manager freezes until
`timestamp + freeze_duration_seconds`, and exactly one
CANCEL_RATE_EXCEEDED event is appended (when a journal is attached);
while frozen and before `freeze_until`, every `can_place_order` call is
refused with reason `order_manager_frozen`; and whenever the cleaned
window already holds at least the per-minute limit, any further nonempty
cancellation batch is refused — in particular a 61st cancellation within
60 seconds. -/
theorem c8_cancel_rate_throttling :
    (∀ (m : OrderManager) (desired current : List GridOrder) (ts : ℚ),
      (sync_scan_current m ts (ordersByKey desired) (ordersByKey current)).2 ≠ [] →
      m.throttle_config.cancel_rate_limit_per_minute <
        (clean_cancel_window m.cancel_timestamps ts).length +
        (sync_scan_current m ts (ordersByKey desired) (ordersByKey current)).2.length →
      (m.sync_orders desired current ts).1 = ([], []) ∧
      (m.sync_orders desired current ts).2.is_frozen = true ∧
      (m.sync_orders desired current ts).2.freeze_until =
        some (ts + m.throttle_config.freeze_duration_seconds) ∧
      (m.has_journal = true →
        countCancelRateEvents (m.sync_orders desired current ts).2.journal =
          countCancelRateEvents m.journal + 1)) ∧
    (∀ (m : OrderManager) (o : GridOrder) (ts u : ℚ),
      m.is_frozen = true → m.freeze_until = some u → ts < u →
      (m.can_place_order o ts).1 = (false, "order_manager_frozen")) ∧
    (∀ (m : OrderManager) (c : Nat) (ts : ℚ),
      1 ≤ c →
      m.throttle_config.cancel_rate_limit_per_minute ≤
        (clean_cancel_window m.cancel_timestamps ts).length →
      (m.check_cancel_rate c ts).1 = false) := by
  refine ⟨?_, ?_, ?_⟩
  · intro m desired current ts hne hexceed
    have hm1 := scan_desired_preserves_throttle ts
      ((ordersByKey current).map (fun p => p.1)) (ordersByKey desired) m
    set m1 := (sync_scan_desired ts ((ordersByKey current).map (fun p => p.1))
      (ordersByKey desired) m).2 with hm1def
    set cancels := (sync_scan_current m ts (ordersByKey desired) (ordersByKey current)).2
      with hcancels
    have hlen : 0 < cancels.length := List.length_pos.mpr hne
    have hcond : m1.throttle_config.cancel_rate_limit_per_minute <
        (clean_cancel_window m1.cancel_timestamps ts).length + cancels.length := by
      rw [hm1.1, hm1.2.1]
      exact hexceed
    have hrate : m1.check_cancel_rate cancels.length ts =
        (false, ({ m1 with cancel_timestamps := clean_cancel_window m1.cancel_timestamps ts}
            : OrderManager).writeEvent
          (({ m1 with cancel_timestamps := clean_cancel_window m1.cancel_timestamps ts}
            : OrderManager).cancel_rate_event
            (clean_cancel_window m1.cancel_timestamps ts).length cancels.length ts)) := by
      unfold OrderManager.check_cancel_rate
      dsimp only
      rw [if_pos hcond]
    have hsync : m.sync_orders desired current ts =
        (([], []), (m1.check_cancel_rate cancels.length ts).2.freeze ts) := by
      unfold OrderManager.sync_orders
      dsimp only
      rw [if_pos hlen]
      rw [hrate]
      dsimp only
      rw [if_neg (by decide : ¬ (false = true))]
    rw [hsync]
    refine ⟨rfl, rfl, ?_, ?_⟩
    · show some (ts + (m1.check_cancel_rate cancels.length ts).2.throttle_config.freeze_duration_seconds) =
        some (ts + m.throttle_config.freeze_duration_seconds)
      rw [hrate]
      unfold OrderManager.writeEvent
      split_ifs
      · show some (ts + m1.throttle_config.freeze_duration_seconds) = _
        rw [hm1.2.1]
      · show some (ts + m1.throttle_config.freeze_duration_seconds) = _
        rw [hm1.2.1]
    · intro hj
      rw [hrate]
      unfold OrderManager.freeze OrderManager.writeEvent
      dsimp only
      have hj1 : m1.has_journal = true := by
        rw [hm1.2.2.1]
        exact hj
      rw [if_pos hj1]
      dsimp only
      rw [countCancelRate_append_rate _ _ rfl]
      rw [hm1.2.2.2]
  · intro m o ts u hf hu hlt
    unfold OrderManager.can_place_order
    rw [if_pos hf, hu]
    dsimp only
    rw [if_neg (not_le.mpr hlt)]
  · intro m c ts hc hge
    unfold OrderManager.check_cancel_rate
    dsimp only
    rw [if_pos (by omega :
      m.throttle_config.cancel_rate_limit_per_minute <
        (clean_cancel_window m.cancel_timestamps ts).length + c)]

/-- C8 witness: with sixty cancellations recorded at time 50, the sync
call at time 60 that wants one more cancellation (the 61st within the
window) returns nothing, freezes the manager until time 120 and appends
one CANCEL_RATE_EXCEEDED event; a frozen manager refuses placement before
`freeze_until`; and the limiter refuses one further cancellation whenever
the window is already at the limit. -/
theorem c8_cancel_rate_throttling_witness :
    ((om_sixty_cancels.sync_orders [] [order_live_sell] 60).1 = ([], []) ∧
      (om_sixty_cancels.sync_orders [] [order_live_sell] 60).2.is_frozen = true ∧
      (om_sixty_cancels.sync_orders [] [order_live_sell] 60).2.freeze_until =
        some (60 + om_sixty_cancels.throttle_config.freeze_duration_seconds) ∧
      (om_sixty_cancels.has_journal = true →
        countCancelRateEvents
            (om_sixty_cancels.sync_orders [] [order_live_sell] 60).2.journal =
          countCancelRateEvents om_sixty_cancels.journal + 1)) ∧
    (om_frozen.can_place_order order_plain_buy 100).1 = (false, "order_manager_frozen") ∧
    (om_sixty_cancels.check_cancel_rate 1 60).1 = false := by
  have hkeep : clean_cancel_window om_sixty_cancels.cancel_timestamps 60 =
      om_sixty_cancels.cancel_timestamps := by
    unfold clean_cancel_window
    rw [List.filter_eq_self]
    intro a ha
    have ha50 : a = 50 := List.eq_of_mem_replicate ha
    rw [ha50]
    norm_num
  have hscan : (sync_scan_current om_sixty_cancels 60 (ordersByKey [])
      (ordersByKey [order_live_sell])).2 = ["x1"] := by
    norm_num [sync_scan_current, ordersByKey, dictInsert, OrderManager.can_cancel,
      om_sixty_cancels, order_live_sell, List.lookup]
  refine ⟨c8_cancel_rate_throttling.1 om_sixty_cancels [] [order_live_sell] 60 ?_ ?_,
    c8_cancel_rate_throttling.2.1 om_frozen order_plain_buy 100 120 rfl rfl (by norm_num),
    c8_cancel_rate_throttling.2.2 om_sixty_cancels 1 60 (by norm_num) ?_⟩
  · rw [hscan]
    simp
  · rw [hscan, hkeep]
    norm_num [om_sixty_cancels]
  · rw [hkeep]
    norm_num [om_sixty_cancels]

end TaoGrid
